import Mathlib

/-!
Verification of the kitchen-inventory Ingredient Resolution & Recipe-Matching
Engine (`app/api/services/unit_converter.py`, `recipe_parser.py`,
`weight_parser.py`, `fresh_ingredient_service.py`, `recipe_matcher.py`,
`app/api/v1/endpoints_recipes.py`, `app/config/*.py`, `app/crud/*.py`).

Python strings are embedded as `List Char` (ASCII fragment); Python floats as
`ℚ` (the claims under study concern control flow and exact table arithmetic,
not rounding); `None`-or-value as `Option`; raised exceptions as `Except.error`.
Database rows are plain records, the session a record of row lists; SQLAlchemy
`scalar_one_or_none` queries are embedded as `List.find?` (first matching row),
which is faithful on stores satisfying the uniqueness invariants of the data
model (unique ingredient `name`, unique alias text, ids from a counter).
-/

/-- The characters of a string literal. -/
def chars (s : String) : List Char := s.data

/-- Embedding of Python's whitespace test (ASCII): space, tab, LF, CR, VT, FF. -/
def pySpace (c : Char) : Bool :=
  c.toNat = 32 || c.toNat = 9 || c.toNat = 10 || c.toNat = 13 || c.toNat = 11 || c.toNat = 12

/-- Embedding of Python's `str.isdigit` character test (ASCII `0`-`9`). -/
def pyDigit (c : Char) : Bool :=
  48 ≤ c.toNat && c.toNat ≤ 57

/-- Python's `str.lower` on one ASCII character is Lean's `Char.toLower`. -/
def pyLower (c : Char) : Char := Char.toLower c

/-- Embedding of Python's `str.lower`. -/
def lowerStr (l : List Char) : List Char := l.map pyLower

/-- Embedding of Python's `str.strip()`: drop leading and trailing whitespace. -/
def pyStrip (l : List Char) : List Char :=
  ((l.dropWhile pySpace).reverse.dropWhile pySpace).reverse

/-- Embedding of Python's `str.split()` (no argument): split on whitespace
runs, discarding empty fragments. -/
def pySplit (l : List Char) : List (List Char) :=
  (l.splitOnP pySpace).filter (fun w => decide (w ≠ []))

/-- Embedding of Python's `' '.join(ws)`. -/
def joinSpace (ws : List (List Char)) : List Char :=
  [' '].intercalate ws

/-! Basic facts about the character-level embedding. -/

theorem toNat_ofNat_of_le {n : Nat} (h97 : 97 ≤ n) (h122 : n ≤ 122) :
    (Char.ofNat n).toNat = n := by
  interval_cases n <;> rfl

theorem pyLower_toNat_eq_or (c : Char) :
    (pyLower c).toNat = c.toNat ∨
      ((pyLower c).toNat = c.toNat + 32 ∧ 65 ≤ c.toNat ∧ c.toNat ≤ 90) := by
  unfold pyLower Char.toLower
  by_cases h : 65 ≤ c.toNat ∧ c.toNat ≤ 90
  · right
    rw [if_pos h]
    exact ⟨toNat_ofNat_of_le (by omega) (by omega), h⟩
  · left
    rw [if_neg h]

theorem pyLower_idem (c : Char) : pyLower (pyLower c) = pyLower c := by
  unfold pyLower Char.toLower
  by_cases h : 65 ≤ c.toNat ∧ c.toNat ≤ 90
  · rw [if_pos h]
    have ht : (Char.ofNat (c.toNat + 32)).toNat = c.toNat + 32 :=
      toNat_ofNat_of_le (by omega) (by omega)
    rw [if_neg]
    rw [ht]
    omega
  · rw [if_neg h, if_neg h]

theorem pySpace_eq_false_of_toNat {c : Char} (h : 33 ≤ c.toNat) : pySpace c = false := by
  unfold pySpace
  simp only [Bool.or_eq_false_iff, decide_eq_false_iff_not]
  omega

theorem pySpace_pyLower (c : Char) : pySpace (pyLower c) = pySpace c := by
  rcases pyLower_toNat_eq_or c with h | ⟨h, h65, h90⟩
  · unfold pySpace
    rw [h]
  · rw [pySpace_eq_false_of_toNat (by omega), pySpace_eq_false_of_toNat (by omega)]

theorem lowerStr_idem (l : List Char) : lowerStr (lowerStr l) = lowerStr l := by
  unfold lowerStr
  rw [List.map_map]
  exact List.map_congr_left (fun c _ => pyLower_idem c)

theorem map_eq_self_of_fixed {f : Char → Char} {l : List Char}
    (h : ∀ c ∈ l, f c = c) : l.map f = l := by
  induction l with
  | nil => rfl
  | cons a as ih =>
    simp only [List.map_cons, h a (by simp), List.cons.injEq, true_and]
    exact ih (fun c hc => h c (by simp [hc]))

/-! Facts about `pyStrip`. -/

theorem head?_dropWhile_false {p : Char → Bool} {l : List Char} {c : Char}
    (h : (l.dropWhile p).head? = some c) : p c = false := by
  induction l with
  | nil => simp at h
  | cons a as ih =>
    by_cases hp : p a
    · rw [List.dropWhile_cons_of_pos hp] at h
      exact ih h
    · rw [List.dropWhile_cons_of_neg hp] at h
      simp only [List.head?_cons, Option.some.injEq] at h
      rw [← h]
      exact Bool.not_eq_true _ ▸ (by simpa using hp)

theorem getLast?_dropWhile {p : Char → Bool} {l : List Char}
    (h : l.dropWhile p ≠ []) : (l.dropWhile p).getLast? = l.getLast? := by
  induction l with
  | nil => simp at h
  | cons a as ih =>
    by_cases hp : p a
    · rw [List.dropWhile_cons_of_pos hp] at h ⊢
      have has : as ≠ [] := by
        intro he
        rw [he] at h
        simp at h
      rw [ih h]
      cases as with
      | nil => exact absurd rfl has
      | cons b bs => rw [List.getLast?_cons_cons]
    · rw [List.dropWhile_cons_of_neg hp]

theorem mem_of_mem_dropWhile {p : Char → Bool} {l : List Char} {c : Char}
    (h : c ∈ l.dropWhile p) : c ∈ l :=
  (List.dropWhile_sublist p).mem h

theorem pyStrip_eq_self {l : List Char}
    (hh : ∀ c, l.head? = some c → pySpace c = false)
    (hl : ∀ c, l.getLast? = some c → pySpace c = false) :
    pyStrip l = l := by
  unfold pyStrip
  cases l with
  | nil => rfl
  | cons a as =>
    rw [List.dropWhile_cons_of_neg (by simp [hh a rfl])]
    have hrv : (a :: as).reverse.head? = (a :: as).getLast? := List.head?_reverse _
    cases hrev : (a :: as).reverse with
    | nil => simp at hrev
    | cons b bs =>
      have hb : (a :: as).getLast? = some b := by rw [← hrv, hrev]; rfl
      rw [List.dropWhile_cons_of_neg (by simp [hl b hb])]
      rw [← hrev, List.reverse_reverse]

theorem mem_of_mem_pyStrip {l : List Char} {c : Char} (h : c ∈ pyStrip l) : c ∈ l := by
  unfold pyStrip at h
  rw [List.mem_reverse] at h
  have h2 := mem_of_mem_dropWhile h
  rw [List.mem_reverse] at h2
  exact mem_of_mem_dropWhile h2

theorem pyStrip_nil : pyStrip [] = [] := rfl

/-! Facts about `pySplit`. -/

theorem pySpace_space : pySpace ' ' = true := rfl

theorem splitOnP_chunks {p : Char → Bool} :
    ∀ l : List Char, ∀ w ∈ l.splitOnP p, ∀ c ∈ w, c ∈ l ∧ p c = false := by
  intro l
  induction l with
  | nil =>
    intro w hw c hc
    simp only [List.splitOnP_nil, List.mem_singleton] at hw
    subst hw
    simp at hc
  | cons a as ih =>
    intro w hw c hc
    rw [List.splitOnP_cons] at hw
    by_cases hp : p a
    · rw [if_pos hp] at hw
      rcases List.mem_cons.mp hw with he | hm
      · subst he; simp at hc
      · have := ih w hm c hc
        exact ⟨List.mem_cons_of_mem _ this.1, this.2⟩
    · rw [if_neg hp] at hw
      cases hsp : as.splitOnP p with
      | nil => exact absurd hsp (List.splitOnP_ne_nil _ _)
      | cons w0 ws =>
        rw [hsp] at hw
        simp only [List.modifyHead] at hw
        rcases List.mem_cons.mp hw with he | hm
        · subst he
          rcases List.mem_cons.mp hc with he2 | hm2
          · subst he2
            exact ⟨List.mem_cons_self _ _, by simpa using hp⟩
          · have := ih w0 (by rw [hsp]; exact List.mem_cons_self _ _) c hm2
            exact ⟨List.mem_cons_of_mem _ this.1, this.2⟩
        · have := ih w (by rw [hsp]; exact List.mem_cons_of_mem _ hm) c hc
          exact ⟨List.mem_cons_of_mem _ this.1, this.2⟩

theorem pySplit_tokens {l : List Char} {w : List Char} (hw : w ∈ pySplit l) :
    w ≠ [] ∧ ∀ c ∈ w, c ∈ l ∧ pySpace c = false := by
  unfold pySplit at hw
  have hmem := List.mem_of_mem_filter hw
  have hne : w ≠ [] := by simpa using List.of_mem_filter hw
  exact ⟨hne, fun c hc => splitOnP_chunks l w hmem c hc⟩

theorem intercalate_cons_cons_space (a : List Char) (b : List Char) (ts : List (List Char)) :
    joinSpace (a :: b :: ts) = a ++ ' ' :: joinSpace (b :: ts) := by
  unfold joinSpace
  simp [List.intercalate, List.intersperse]

theorem intercalate_single_space (a : List Char) : joinSpace [a] = a := by
  unfold joinSpace
  simp [List.intercalate]

theorem pySplit_joinSpace (ts : List (List Char))
    (hne : ∀ t ∈ ts, t ≠ [])
    (hns : ∀ t ∈ ts, ∀ c ∈ t, pySpace c = false) :
    pySplit (joinSpace ts) = ts := by
  induction ts with
  | nil => rfl
  | cons t ts ih =>
    cases ts with
    | nil =>
      rw [intercalate_single_space]
      unfold pySplit
      rw [List.splitOnP_eq_single _ _ (by intro x hx; simp [hns t (by simp) x hx])]
      rw [List.filter_cons_of_pos (by simp [hne t (by simp)])]
      rfl
    | cons u ts2 =>
      rw [intercalate_cons_cons_space]
      unfold pySplit
      rw [List.splitOnP_first _ _ (by intro x hx; simp [hns t (by simp) x hx]) ' ' pySpace_space]
      rw [List.filter_cons_of_pos (by simp [hne t (by simp)])]
      have := ih (fun x hx => hne x (List.mem_cons_of_mem _ hx))
        (fun x hx => hns x (List.mem_cons_of_mem _ hx))
      unfold pySplit at this
      rw [this]

theorem head?_joinSpace {ts : List (List Char)} (hts : ts ≠ [])
    (hne : ∀ t ∈ ts, t ≠ []) {c : Char} (hc : (joinSpace ts).head? = some c) :
    ∃ t ∈ ts, t.head? = some c := by
  cases ts with
  | nil => exact absurd rfl hts
  | cons t ts =>
    cases ts with
    | nil =>
      rw [intercalate_single_space] at hc
      exact ⟨t, by simp, hc⟩
    | cons u ts2 =>
      rw [intercalate_cons_cons_space] at hc
      cases t with
      | nil => exact absurd rfl (hne [] (by simp))
      | cons a as =>
        refine ⟨a :: as, by simp, ?_⟩
        simpa using hc

theorem joinSpace_ne_nil {ts : List (List Char)} (hts : ts ≠ [])
    (hne : ∀ t ∈ ts, t ≠ []) : joinSpace ts ≠ [] := by
  cases ts with
  | nil => exact absurd rfl hts
  | cons t ts =>
    cases ts with
    | nil =>
      rw [intercalate_single_space]
      exact hne t (by simp)
    | cons u ts2 =>
      rw [intercalate_cons_cons_space]
      cases t with
      | nil => exact absurd rfl (hne [] (by simp))
      | cons a as => simp

theorem getLast?_joinSpace {ts : List (List Char)} (hts : ts ≠ [])
    (hne : ∀ t ∈ ts, t ≠ []) {c : Char} (hc : (joinSpace ts).getLast? = some c) :
    ∃ t ∈ ts, t.getLast? = some c := by
  induction ts with
  | nil => exact absurd rfl hts
  | cons t ts ih =>
    cases ts with
    | nil =>
      rw [intercalate_single_space] at hc
      exact ⟨t, by simp, hc⟩
    | cons u ts2 =>
      rw [intercalate_cons_cons_space] at hc
      have hjn : joinSpace (u :: ts2) ≠ [] :=
        joinSpace_ne_nil (by simp) (fun x hx => hne x (List.mem_cons_of_mem _ hx))
      rw [List.getLast?_append] at hc
      cases hj : joinSpace (u :: ts2) with
      | nil => exact absurd hj hjn
      | cons d ds =>
        rw [hj, List.getLast?_cons_cons] at hc
        cases hgl : (d :: ds).getLast? with
        | none => simp at hgl
        | some e =>
          rw [hgl, Option.or_some] at hc
          rcases ih (by simp) (fun x hx => hne x (List.mem_cons_of_mem _ hx))
            (by rw [hj, hgl, hc]) with ⟨t2, ht2, hl2⟩
          exact ⟨t2, List.mem_cons_of_mem _ ht2, hl2⟩

theorem mem_joinSpace {ts : List (List Char)} {c : Char} (h : c ∈ joinSpace ts) :
    c = ' ' ∨ ∃ t ∈ ts, c ∈ t := by
  induction ts with
  | nil => simp [joinSpace, List.intercalate] at h
  | cons t ts ih =>
    cases ts with
    | nil =>
      rw [intercalate_single_space] at h
      exact Or.inr ⟨t, by simp, h⟩
    | cons u ts2 =>
      rw [intercalate_cons_cons_space] at h
      rcases List.mem_append.mp h with hm | hm
      · exact Or.inr ⟨t, by simp, hm⟩
      · rcases List.mem_cons.mp hm with he | hm2
        · exact Or.inl he
        · rcases ih hm2 with he | ⟨t2, ht2, hc2⟩
          · exact Or.inl he
          · exact Or.inr ⟨t2, List.mem_cons_of_mem _ ht2, hc2⟩

theorem head?_pyStrip_nonspace {l : List Char} {c : Char}
    (h : (pyStrip l).head? = some c) : pySpace c = false := by
  unfold pyStrip at h
  rw [List.head?_reverse] at h
  have hne : (l.dropWhile pySpace).reverse.dropWhile pySpace ≠ [] := by
    intro he
    rw [he] at h
    simp at h
  rw [getLast?_dropWhile hne, List.getLast?_reverse] at h
  exact head?_dropWhile_false h

theorem getLast?_pyStrip_nonspace {l : List Char} {c : Char}
    (h : (pyStrip l).getLast? = some c) : pySpace c = false := by
  unfold pyStrip at h
  rw [List.getLast?_reverse] at h
  exact head?_dropWhile_false h

theorem pyStrip_idem (l : List Char) : pyStrip (pyStrip l) = pyStrip l :=
  pyStrip_eq_self (fun _ h => head?_pyStrip_nonspace h)
    (fun _ h => getLast?_pyStrip_nonspace h)

theorem dropWhile_lowerStr (l : List Char) :
    List.dropWhile pySpace (lowerStr l) = lowerStr (List.dropWhile pySpace l) := by
  unfold lowerStr
  rw [List.dropWhile_map]
  have hpl : (pySpace ∘ pyLower) = pySpace := funext pySpace_pyLower
  rw [hpl]

theorem reverse_lowerStr (l : List Char) :
    (lowerStr l).reverse = lowerStr l.reverse := by
  unfold lowerStr
  rw [List.map_reverse]

theorem lowerStr_pyStrip (l : List Char) :
    lowerStr (pyStrip l) = pyStrip (lowerStr l) := by
  unfold pyStrip
  rw [dropWhile_lowerStr, reverse_lowerStr, dropWhile_lowerStr, reverse_lowerStr]

theorem lowerStr_pyStrip_lowerStr (l : List Char) :
    lowerStr (pyStrip (lowerStr l)) = pyStrip (lowerStr l) := by
  rw [lowerStr_pyStrip, lowerStr_idem]

/-!
Embedding of `app/api/services/unit_converter.py`.
-/

/-- Lookup in a Python dict embedded as an association list (first match). -/
def dictLookup : List (List Char × ℚ) → List Char → Option ℚ
  | [], _ => none
  | kv :: rest, k => if kv.1 = k then some kv.2 else dictLookup rest k

/-- The alias-matching chain of `standardize_unit`, applied after the
`unit.lower().strip()` mutation (source lines 17-67). -/
def standardize_unit_chain (u : List Char) : List Char :=
  if u = [] then chars "unit"
  else if u ∈ [chars "g", chars "gr", chars "gram", chars "grams"] then chars "g"
  else if u ∈ [chars "kg", chars "kilo", chars "kilogram", chars "kilograms"] then chars "kg"
  else if u ∈ [chars "oz", chars "ounce", chars "ounces"] then chars "oz"
  else if u ∈ [chars "lb", chars "lbs", chars "pound", chars "pounds"] then chars "lb"
  else if u ∈ [chars "ml", chars "milliliter", chars "milliliters", chars "millilitre",
      chars "millilitres"] then chars "ml"
  else if u ∈ [chars "l", chars "liter", chars "liters", chars "litre", chars "litres"] then
    chars "l"
  else if u ∈ [chars "cl", chars "centiliter", chars "centiliters"] then chars "cl"
  else if u ∈ [chars "cup", chars "cups", chars "c"] then chars "cup"
  else if u ∈ [chars "tbsp", chars "tablespoon", chars "tablespoons", chars "tbs",
      chars "T"] then chars "tbsp"
  else if u ∈ [chars "tsp", chars "teaspoon", chars "teaspoons", chars "t"] then chars "tsp"
  else if u ∈ [chars "fl oz", chars "floz", chars "fluid ounce", chars "fluid ounces"] then
    chars "fl oz"
  else if u ∈ [chars "pint", chars "pints", chars "pt"] then chars "pint"
  else if u ∈ [chars "quart", chars "quarts", chars "qt"] then chars "quart"
  else if u ∈ [chars "gal", chars "gallon", chars "gallons"] then chars "gallon"
  else if u ∈ [chars "unit", chars "units", chars "piece", chars "pieces", chars "item",
      chars "items", chars "pcs", chars "pc", chars "whole", chars "count",
      chars "clove", chars "cloves", chars "packet", chars "packets", chars "serving",
      chars "servings", chars "bag", chars "bags",
      chars "can", chars "cans", chars "jar", chars "jars", chars "bottle", chars "bottles",
      chars "box", chars "boxes",
      chars "small", chars "medium", chars "large", chars "head", chars "heads",
      chars "bunch", chars "bunches",
      chars "slice", chars "slices", chars "stalk", chars "stalks", chars "sprig",
      chars "sprigs", chars "leaf", chars "leaves"] then chars "unit"
  else if u ∈ [chars "dozen", chars "doz"] then chars "dozen"
  else u

/-- Embedding of `standardize_unit` (source lines 11-67): `None`/blank guard, then
`unit.lower().strip()`, then the alias chain. -/
def standardize_unit (unit : List Char) : List Char :=
  if unit = [] then chars "unit"
  else standardize_unit_chain (pyStrip (lowerStr unit))

/-- Embedding of `DRY_INGREDIENT_DENSITIES` (grams per cup). -/
def DRY_INGREDIENT_DENSITIES : List (List Char × ℚ) :=
  [(chars "flour", 120), (chars "all-purpose flour", 120), (chars "bread flour", 127),
   (chars "cake flour", 114), (chars "whole wheat flour", 120), (chars "sugar", 200),
   (chars "white sugar", 200), (chars "granulated sugar", 200), (chars "brown sugar", 220),
   (chars "powdered sugar", 120), (chars "confectioners sugar", 120), (chars "butter", 227),
   (chars "cocoa powder", 85), (chars "oats", 90), (chars "rice", 185), (chars "salt", 292),
   (chars "baking soda", 220), (chars "baking powder", 192)]

/-- Embedding of `LIQUID_INGREDIENT_DENSITIES` (ml per cup). -/
def LIQUID_INGREDIENT_DENSITIES : List (List Char × ℚ) :=
  [(chars "milk", 240), (chars "water", 240), (chars "oil", 240), (chars "vegetable oil", 240),
   (chars "olive oil", 216), (chars "honey", 340), (chars "maple syrup", 312),
   (chars "vanilla extract", 240)]

/-- Embedding of `WEIGHT_TO_GRAMS`. -/
def WEIGHT_TO_GRAMS : List (List Char × ℚ) :=
  [(chars "g", 1), (chars "kg", 1000), (chars "oz", 28.35), (chars "lb", 453.59),
   (chars "lbs", 453.59)]

/-- Embedding of `VOLUME_TO_ML`. -/
def VOLUME_TO_ML : List (List Char × ℚ) :=
  [(chars "ml", 1), (chars "l", 1000), (chars "cl", 10), (chars "cup", 240),
   (chars "cups", 240), (chars "tbsp", 14.79), (chars "tablespoon", 14.79),
   (chars "tablespoons", 14.79), (chars "tsp", 4.93), (chars "teaspoon", 4.93),
   (chars "teaspoons", 4.93), (chars "fl oz", 29.57), (chars "floz", 29.57),
   (chars "pint", 473.18), (chars "quart", 946.35), (chars "gallon", 3785.41)]

/-- Embedding of `DISCRETE_UNITS`. -/
def DISCRETE_UNITS : List (List Char) := [chars "unit", chars "dozen"]

/-- Embedding of `DEFAULT_DRY_DENSITY` (g per cup). -/
def DEFAULT_DRY_DENSITY : ℚ := 150

/-- Embedding of `LIQUID_KEYWORDS`. -/
def LIQUID_KEYWORDS : List (List Char) :=
  [chars "oil", chars "milk", chars "water", chars "juice", chars "broth", chars "stock",
   chars "sauce", chars "vinegar", chars "wine", chars "beer", chars "liquor", chars "cream",
   chars "yogurt", chars "buttermilk", chars "extract", chars "syrup", chars "honey",
   chars "molasses", chars "marinade", chars "dressing", chars "gravy"]

/-- Embedding of Python's `needle in hay` substring test. -/
def strContains (needle hay : List Char) : Bool :=
  hay.tails.any (fun t => needle.isPrefixOf t)

/-- Embedding of `is_likely_liquid` (source lines 149-163). -/
def is_likely_liquid (ingredient_name : Option (List Char)) : Bool :=
  match ingredient_name with
  | none => false
  | some n =>
    if n = [] then false
    else LIQUID_KEYWORDS.any (fun k => strContains k (lowerStr n))

/-- Result record of `convert_to_base_unit`. -/
structure ConvResult where
  quantity : ℚ
  base_unit : List Char
  conversion_confidence : List Char
  deriving DecidableEq, Repr

/-- Embedding of `convert_to_base_unit` (source lines 166-278). -/
def convert_to_base_unit (quantity : ℚ) (unit : List Char)
    (ingredient_name : Option (List Char)) : ConvResult :=
  if unit = [] ∨ pyStrip unit = [] then
    ⟨quantity, chars "unit", chars "high"⟩
  else
    let u := standardize_unit (pyStrip (lowerStr unit))
    let ingredient_norm : Option (List Char) :=
      match ingredient_name with
      | none => none
      | some n => if n = [] then none else some (pyStrip (lowerStr n))
    if u ∈ DISCRETE_UNITS then
      if u = chars "dozen" then ⟨quantity * 12, chars "unit", chars "high"⟩
      else ⟨quantity, chars "unit", chars "high"⟩
    else
      match dictLookup WEIGHT_TO_GRAMS u with
      | some f => ⟨quantity * f, chars "g", chars "high"⟩
      | none =>
        match dictLookup VOLUME_TO_ML u with
        | some vf =>
          let ml_value := quantity * vf
          let dry : Option ℚ :=
            match ingredient_norm with
            | some i => if i = [] then none else dictLookup DRY_INGREDIENT_DENSITIES i
            | none => none
          match dry with
          | some d => ⟨ml_value / 240 * d, chars "g", chars "high"⟩
          | none =>
            let liq : Option ℚ :=
              match ingredient_norm with
              | some i => if i = [] then none else dictLookup LIQUID_INGREDIENT_DENSITIES i
              | none => none
            match liq with
            | some _ => ⟨ml_value, chars "ml", chars "high"⟩
            | none =>
              match ingredient_name with
              | some nm =>
                if nm = [] then ⟨ml_value, chars "ml", chars "low"⟩
                else if is_likely_liquid (some nm) then
                  ⟨ml_value, chars "ml", chars "medium"⟩
                else ⟨ml_value / 240 * DEFAULT_DRY_DENSITY, chars "g", chars "medium"⟩
              | none => ⟨ml_value, chars "ml", chars "low"⟩
        | none => ⟨quantity, u, chars "low"⟩

/-- Embedding of `can_convert_units` (source lines 281-315). -/
def can_convert_units (unit_a unit_b : List Char) : Bool :=
  let a1 := if unit_a ≠ [] then pyStrip unit_a else []
  let b1 := if unit_b ≠ [] then pyStrip unit_b else []
  let a2 := standardize_unit (if a1 ≠ [] then lowerStr a1 else [])
  let b2 := standardize_unit (if b1 ≠ [] then lowerStr b1 else [])
  if a2 = b2 then true
  else if (dictLookup WEIGHT_TO_GRAMS a2).isSome ∧ (dictLookup WEIGHT_TO_GRAMS b2).isSome then
    true
  else if (dictLookup VOLUME_TO_ML a2).isSome ∧ (dictLookup VOLUME_TO_ML b2).isSome then true
  else if a2 ∈ DISCRETE_UNITS ∧ b2 ∈ DISCRETE_UNITS then true
  else false

example : standardize_unit (chars " Grams ") = chars "g" := by decide
example : standardize_unit (chars "foobar") = chars "foobar" := by decide
example : standardize_unit (chars "") = chars "unit" := by decide
example : standardize_unit (chars "doz") = chars "dozen" := by decide
example : convert_to_base_unit 2 (chars "cup") (some (chars "flour")) =
    ⟨240, chars "g", chars "high"⟩ := by
  have h1 : convert_to_base_unit 2 (chars "cup") (some (chars "flour")) =
      ⟨2 * 240 / 240 * 120, chars "g", chars "high"⟩ := rfl
  have h2 : (2 : ℚ) * 240 / 240 * 120 = 240 := by norm_num
  rw [h1, h2]
example : convert_to_base_unit 1 (chars "cup") (some (chars "milk")) =
    ⟨240, chars "ml", chars "high"⟩ := by
  have h1 : convert_to_base_unit 1 (chars "cup") (some (chars "milk")) =
      ⟨1 * 240, chars "ml", chars "high"⟩ := rfl
  have h2 : (1 : ℚ) * 240 = 240 := by norm_num
  rw [h1, h2]
example : convert_to_base_unit 1 (chars "dozen") none =
    ⟨12, chars "unit", chars "high"⟩ := by
  have h1 : convert_to_base_unit 1 (chars "dozen") none =
      ⟨1 * 12, chars "unit", chars "high"⟩ := rfl
  have h2 : (1 : ℚ) * 12 = 12 := by norm_num
  rw [h1, h2]
example : convert_to_base_unit 250 (chars "g") none =
    ⟨250, chars "g", chars "high"⟩ := by
  have h1 : convert_to_base_unit 250 (chars "g") none =
      ⟨250 * 1, chars "g", chars "high"⟩ := rfl
  have h2 : (250 : ℚ) * 1 = 250 := by norm_num
  rw [h1, h2]
example : can_convert_units (chars "kg") (chars "lbs") = true := by decide
example : can_convert_units (chars "kg") (chars "ml") = false := by decide

/-! Normal-form facts about `standardize_unit`. -/

theorem standardize_unit_eq_chain (u : List Char) :
    standardize_unit u = standardize_unit_chain (pyStrip (lowerStr u)) := by
  unfold standardize_unit
  by_cases h : u = []
  · subst h; rfl
  · rw [if_neg h]

theorem strip_lower_norm (u : List Char) :
    pyStrip (lowerStr (pyStrip (lowerStr u))) = pyStrip (lowerStr u) := by
  rw [lowerStr_pyStrip, lowerStr_idem, pyStrip_idem]

theorem standardize_unit_strip_lower (u : List Char) :
    standardize_unit (pyStrip (lowerStr u)) = standardize_unit u := by
  rw [standardize_unit_eq_chain, standardize_unit_eq_chain u, strip_lower_norm]

theorem standardize_unit_lower_strip (u : List Char) :
    standardize_unit (lowerStr (pyStrip u)) = standardize_unit u := by
  rw [lowerStr_pyStrip]
  exact standardize_unit_strip_lower u

/-- The two pre-standardization mutations in `can_convert_units`
(source lines 293-297). -/
def can_convert_arg (u : List Char) : List Char :=
  let u1 := if u ≠ [] then pyStrip u else []
  if u1 ≠ [] then lowerStr u1 else []

theorem standardize_can_convert_arg (u : List Char) :
    standardize_unit (can_convert_arg u) = standardize_unit u := by
  unfold can_convert_arg
  by_cases h : u = []
  · subst h; rfl
  · have h1 : (if u ≠ [] then pyStrip u else []) = pyStrip u := if_pos h
    rw [h1]
    by_cases hs : pyStrip u = []
    · rw [hs]
      have h3 : pyStrip (lowerStr u) = [] := by
        rw [← lowerStr_pyStrip, hs]
        rfl
      rw [standardize_unit_eq_chain u, h3]
      rfl
    · have h2 : (if pyStrip u ≠ [] then lowerStr (pyStrip u) else []) = lowerStr (pyStrip u) :=
        if_pos hs
      rw [h2]
      exact standardize_unit_lower_strip u

/-! Token sets as enumerated by the specification (spec section 4.1): used to
state the claims, to be compared against the code's tables. -/

/-- Weight tokens per the spec. -/
def specWeightTokens : List (List Char) := [chars "g", chars "kg", chars "oz", chars "lb"]

/-- Volume tokens per the spec. -/
def specVolumeTokens : List (List Char) :=
  [chars "ml", chars "l", chars "cl", chars "cup", chars "tbsp", chars "tsp",
   chars "fl oz", chars "pint", chars "quart", chars "gallon"]

/-- Discrete tokens per the spec. -/
def specDiscreteTokens : List (List Char) := [chars "unit", chars "dozen"]

/-- All canonical unit tokens per the spec. -/
def specCanonicalTokens : List (List Char) :=
  specWeightTokens ++ specVolumeTokens ++ specDiscreteTokens

/-- Dimension-class agreement of two raw units per the claim's words: both
standardize into weight tokens, both into volume tokens, or both into
discrete tokens. -/
def sameDimensionClass (a b : List Char) : Prop :=
  (standardize_unit a ∈ specWeightTokens ∧ standardize_unit b ∈ specWeightTokens) ∨
  (standardize_unit a ∈ specVolumeTokens ∧ standardize_unit b ∈ specVolumeTokens) ∨
  (standardize_unit a ∈ specDiscreteTokens ∧ standardize_unit b ∈ specDiscreteTokens)

instance sameDimensionClass.inst (a b : List Char) : Decidable (sameDimensionClass a b) :=
  inferInstanceAs (Decidable ((_ ∈ _ ∧ _ ∈ _) ∨ (_ ∈ _ ∧ _ ∈ _) ∨ (_ ∈ _ ∧ _ ∈ _)))

set_option maxHeartbeats 2000000 in
theorem chain_canonical_or_id (u : List Char) :
    standardize_unit_chain u ∈ specCanonicalTokens ∨ standardize_unit_chain u = u := by
  unfold standardize_unit_chain
  by_cases h0 : u = []
  · rw [if_pos h0]
    left
    decide
  rw [if_neg h0]
  by_cases h1 : u ∈ [chars "g", chars "gr", chars "gram", chars "grams"]
  · rw [if_pos h1]
    left
    decide
  rw [if_neg h1]
  by_cases h2 : u ∈ [chars "kg", chars "kilo", chars "kilogram", chars "kilograms"]
  · rw [if_pos h2]
    left
    decide
  rw [if_neg h2]
  by_cases h3 : u ∈ [chars "oz", chars "ounce", chars "ounces"]
  · rw [if_pos h3]
    left
    decide
  rw [if_neg h3]
  by_cases h4 : u ∈ [chars "lb", chars "lbs", chars "pound", chars "pounds"]
  · rw [if_pos h4]
    left
    decide
  rw [if_neg h4]
  by_cases h5 : u ∈ [chars "ml", chars "milliliter", chars "milliliters", chars "millilitre",
      chars "millilitres"]
  · rw [if_pos h5]
    left
    decide
  rw [if_neg h5]
  by_cases h6 : u ∈ [chars "l", chars "liter", chars "liters", chars "litre", chars "litres"]
  · rw [if_pos h6]
    left
    decide
  rw [if_neg h6]
  by_cases h7 : u ∈ [chars "cl", chars "centiliter", chars "centiliters"]
  · rw [if_pos h7]
    left
    decide
  rw [if_neg h7]
  by_cases h8 : u ∈ [chars "cup", chars "cups", chars "c"]
  · rw [if_pos h8]
    left
    decide
  rw [if_neg h8]
  by_cases h9 : u ∈ [chars "tbsp", chars "tablespoon", chars "tablespoons", chars "tbs",
      chars "T"]
  · rw [if_pos h9]
    left
    decide
  rw [if_neg h9]
  by_cases h10 : u ∈ [chars "tsp", chars "teaspoon", chars "teaspoons", chars "t"]
  · rw [if_pos h10]
    left
    decide
  rw [if_neg h10]
  by_cases h11 : u ∈ [chars "fl oz", chars "floz", chars "fluid ounce", chars "fluid ounces"]
  · rw [if_pos h11]
    left
    decide
  rw [if_neg h11]
  by_cases h12 : u ∈ [chars "pint", chars "pints", chars "pt"]
  · rw [if_pos h12]
    left
    decide
  rw [if_neg h12]
  by_cases h13 : u ∈ [chars "quart", chars "quarts", chars "qt"]
  · rw [if_pos h13]
    left
    decide
  rw [if_neg h13]
  by_cases h14 : u ∈ [chars "gal", chars "gallon", chars "gallons"]
  · rw [if_pos h14]
    left
    decide
  rw [if_neg h14]
  by_cases h15 : u ∈ [chars "unit", chars "units", chars "piece", chars "pieces", chars "item",
      chars "items", chars "pcs", chars "pc", chars "whole", chars "count",
      chars "clove", chars "cloves", chars "packet", chars "packets", chars "serving",
      chars "servings", chars "bag", chars "bags",
      chars "can", chars "cans", chars "jar", chars "jars", chars "bottle", chars "bottles",
      chars "box", chars "boxes",
      chars "small", chars "medium", chars "large", chars "head", chars "heads",
      chars "bunch", chars "bunches",
      chars "slice", chars "slices", chars "stalk", chars "stalks", chars "sprig",
      chars "sprigs", chars "leaf", chars "leaves"]
  · rw [if_pos h15]
    left
    decide
  rw [if_neg h15]
  by_cases h16 : u ∈ [chars "dozen", chars "doz"]
  · rw [if_pos h16]
    left
    decide
  rw [if_neg h16]
  right
  rfl

set_option maxHeartbeats 4000000 in
theorem chain_cases (u : List Char) :
    standardize_unit_chain u ∈ specCanonicalTokens ∨
    (standardize_unit_chain u = u ∧ dictLookup WEIGHT_TO_GRAMS u = none ∧
     dictLookup VOLUME_TO_ML u = none ∧ u ∉ DISCRETE_UNITS) := by
  unfold standardize_unit_chain
  by_cases h0 : u = []
  · rw [if_pos h0]
    left
    decide
  rw [if_neg h0]
  by_cases h1 : u ∈ [chars "g", chars "gr", chars "gram", chars "grams"]
  · rw [if_pos h1]
    left
    decide
  rw [if_neg h1]
  by_cases h2 : u ∈ [chars "kg", chars "kilo", chars "kilogram", chars "kilograms"]
  · rw [if_pos h2]
    left
    decide
  rw [if_neg h2]
  by_cases h3 : u ∈ [chars "oz", chars "ounce", chars "ounces"]
  · rw [if_pos h3]
    left
    decide
  rw [if_neg h3]
  by_cases h4 : u ∈ [chars "lb", chars "lbs", chars "pound", chars "pounds"]
  · rw [if_pos h4]
    left
    decide
  rw [if_neg h4]
  by_cases h5 : u ∈ [chars "ml", chars "milliliter", chars "milliliters", chars "millilitre",
      chars "millilitres"]
  · rw [if_pos h5]
    left
    decide
  rw [if_neg h5]
  by_cases h6 : u ∈ [chars "l", chars "liter", chars "liters", chars "litre", chars "litres"]
  · rw [if_pos h6]
    left
    decide
  rw [if_neg h6]
  by_cases h7 : u ∈ [chars "cl", chars "centiliter", chars "centiliters"]
  · rw [if_pos h7]
    left
    decide
  rw [if_neg h7]
  by_cases h8 : u ∈ [chars "cup", chars "cups", chars "c"]
  · rw [if_pos h8]
    left
    decide
  rw [if_neg h8]
  by_cases h9 : u ∈ [chars "tbsp", chars "tablespoon", chars "tablespoons", chars "tbs",
      chars "T"]
  · rw [if_pos h9]
    left
    decide
  rw [if_neg h9]
  by_cases h10 : u ∈ [chars "tsp", chars "teaspoon", chars "teaspoons", chars "t"]
  · rw [if_pos h10]
    left
    decide
  rw [if_neg h10]
  by_cases h11 : u ∈ [chars "fl oz", chars "floz", chars "fluid ounce", chars "fluid ounces"]
  · rw [if_pos h11]
    left
    decide
  rw [if_neg h11]
  by_cases h12 : u ∈ [chars "pint", chars "pints", chars "pt"]
  · rw [if_pos h12]
    left
    decide
  rw [if_neg h12]
  by_cases h13 : u ∈ [chars "quart", chars "quarts", chars "qt"]
  · rw [if_pos h13]
    left
    decide
  rw [if_neg h13]
  by_cases h14 : u ∈ [chars "gal", chars "gallon", chars "gallons"]
  · rw [if_pos h14]
    left
    decide
  rw [if_neg h14]
  by_cases h15 : u ∈ [chars "unit", chars "units", chars "piece", chars "pieces", chars "item",
      chars "items", chars "pcs", chars "pc", chars "whole", chars "count",
      chars "clove", chars "cloves", chars "packet", chars "packets", chars "serving",
      chars "servings", chars "bag", chars "bags",
      chars "can", chars "cans", chars "jar", chars "jars", chars "bottle", chars "bottles",
      chars "box", chars "boxes",
      chars "small", chars "medium", chars "large", chars "head", chars "heads",
      chars "bunch", chars "bunches",
      chars "slice", chars "slices", chars "stalk", chars "stalks", chars "sprig",
      chars "sprigs", chars "leaf", chars "leaves"]
  · rw [if_pos h15]
    left
    decide
  rw [if_neg h15]
  by_cases h16 : u ∈ [chars "dozen", chars "doz"]
  · rw [if_pos h16]
    left
    decide
  rw [if_neg h16]
  right
  have e_g : chars "g" ≠ u := fun he => h1 (by rw [← he]; decide)
  have e_kg : chars "kg" ≠ u := fun he => h2 (by rw [← he]; decide)
  have e_oz : chars "oz" ≠ u := fun he => h3 (by rw [← he]; decide)
  have e_lb : chars "lb" ≠ u := fun he => h4 (by rw [← he]; decide)
  have e_lbs : chars "lbs" ≠ u := fun he => h4 (by rw [← he]; decide)
  have e_ml : chars "ml" ≠ u := fun he => h5 (by rw [← he]; decide)
  have e_l : chars "l" ≠ u := fun he => h6 (by rw [← he]; decide)
  have e_cl : chars "cl" ≠ u := fun he => h7 (by rw [← he]; decide)
  have e_cup : chars "cup" ≠ u := fun he => h8 (by rw [← he]; decide)
  have e_cups : chars "cups" ≠ u := fun he => h8 (by rw [← he]; decide)
  have e_tbsp : chars "tbsp" ≠ u := fun he => h9 (by rw [← he]; decide)
  have e_tablespoon : chars "tablespoon" ≠ u := fun he => h9 (by rw [← he]; decide)
  have e_tablespoons : chars "tablespoons" ≠ u := fun he => h9 (by rw [← he]; decide)
  have e_tsp : chars "tsp" ≠ u := fun he => h10 (by rw [← he]; decide)
  have e_teaspoon : chars "teaspoon" ≠ u := fun he => h10 (by rw [← he]; decide)
  have e_teaspoons : chars "teaspoons" ≠ u := fun he => h10 (by rw [← he]; decide)
  have e_fl_oz : chars "fl oz" ≠ u := fun he => h11 (by rw [← he]; decide)
  have e_floz : chars "floz" ≠ u := fun he => h11 (by rw [← he]; decide)
  have e_pint : chars "pint" ≠ u := fun he => h12 (by rw [← he]; decide)
  have e_quart : chars "quart" ≠ u := fun he => h13 (by rw [← he]; decide)
  have e_gallon : chars "gallon" ≠ u := fun he => h14 (by rw [← he]; decide)
  refine ⟨rfl, ?_, ?_, ?_⟩
  · simp [dictLookup, WEIGHT_TO_GRAMS, e_g, e_kg, e_oz, e_lb, e_lbs]
  · simp [dictLookup, VOLUME_TO_ML, e_ml, e_l, e_cl, e_cup, e_cups, e_tbsp, e_tablespoon, e_tablespoons, e_tsp, e_teaspoon, e_teaspoons, e_fl_oz, e_floz, e_pint, e_quart, e_gallon]
  · intro hm
    simp only [DISCRETE_UNITS, List.mem_cons, List.not_mem_nil, or_false] at hm
    rcases hm with he | he
    · exact h15 (by rw [he]; decide)
    · exact h16 (by rw [he]; decide)

theorem standardize_unit_cases (x : List Char) :
    standardize_unit x ∈ specCanonicalTokens ∨
    (dictLookup WEIGHT_TO_GRAMS (standardize_unit x) = none ∧
     dictLookup VOLUME_TO_ML (standardize_unit x) = none ∧
     standardize_unit x ∉ DISCRETE_UNITS) := by
  rw [standardize_unit_eq_chain]
  rcases chain_cases (pyStrip (lowerStr x)) with hc | ⟨heq, hw, hv, hd⟩
  · left; exact hc
  · right
    rw [heq]
    exact ⟨hw, hv, hd⟩

theorem weight_key_spec (x : List Char) :
    (dictLookup WEIGHT_TO_GRAMS (standardize_unit x)).isSome = true ↔
      standardize_unit x ∈ specWeightTokens := by
  have hcase := standardize_unit_cases x
  generalize hS : standardize_unit x = S at hcase ⊢
  rcases hcase with hc | ⟨hw, _, _⟩
  · simp only [specCanonicalTokens, specWeightTokens, specVolumeTokens, specDiscreteTokens,
      List.mem_append, List.mem_cons, List.not_mem_nil, or_false] at hc
    rcases hc with (((rfl|rfl|rfl|rfl)|(rfl|rfl|rfl|rfl|rfl|rfl|rfl|rfl|rfl|rfl))|(rfl|rfl)) <;>
      decide
  · rw [hw]
    simp only [Option.isSome_none, Bool.false_eq_true, false_iff]
    intro hmem
    simp only [specWeightTokens, List.mem_cons, List.not_mem_nil, or_false] at hmem
    rcases hmem with rfl | rfl | rfl | rfl <;> exact absurd hw (by decide)

theorem volume_key_spec (x : List Char) :
    (dictLookup VOLUME_TO_ML (standardize_unit x)).isSome = true ↔
      standardize_unit x ∈ specVolumeTokens := by
  have hcase := standardize_unit_cases x
  generalize hS : standardize_unit x = S at hcase ⊢
  rcases hcase with hc | ⟨_, hv, _⟩
  · simp only [specCanonicalTokens, specWeightTokens, specVolumeTokens, specDiscreteTokens,
      List.mem_append, List.mem_cons, List.not_mem_nil, or_false] at hc
    rcases hc with (((rfl|rfl|rfl|rfl)|(rfl|rfl|rfl|rfl|rfl|rfl|rfl|rfl|rfl|rfl))|(rfl|rfl)) <;>
      decide
  · rw [hv]
    simp only [Option.isSome_none, Bool.false_eq_true, false_iff]
    intro hmem
    simp only [specVolumeTokens, List.mem_cons, List.not_mem_nil, or_false] at hmem
    rcases hmem with rfl|rfl|rfl|rfl|rfl|rfl|rfl|rfl|rfl|rfl <;> exact absurd hv (by decide)

theorem discrete_units_eq_spec : DISCRETE_UNITS = specDiscreteTokens := rfl

/-!
Embedding of `normalize_ingredient_text` from `app/api/services/recipe_parser.py`
(lines 34-99).
-/

/-- The `phrase_prefixes` list (source lines 44-50), tried in order; only the
first match is stripped (the loop breaks). -/
def phrasePrefixList : List (List Char) :=
  [chars "juice and zest of ", chars "juice of ", chars "zest of ",
   chars "optional variation: ", chars "optional: "]

/-- The prefix-stripping loop of `normalize_ingredient_text` (lines 51-54). -/
def stripLeadingPhrase (t : List Char) : List Char :=
  match phrasePrefixList.find? (fun p => p.isPrefixOf t) with
  | some p => t.drop p.length
  | none => t

/-- The `remove_words` stopword set (source lines 57-80). -/
def remove_words : List (List Char) :=
  [chars "cup", chars "cups", chars "tablespoon", chars "tablespoons", chars "tbsp",
   chars "teaspoon", chars "teaspoons", chars "tsp",
   chars "ounce", chars "ounces", chars "oz", chars "pound", chars "pounds", chars "lb",
   chars "lbs", chars "gram", chars "grams", chars "g",
   chars "kilogram", chars "kilograms", chars "kg", chars "liter", chars "liters", chars "l",
   chars "milliliter", chars "milliliters", chars "ml",
   chars "pinch", chars "dash", chars "handful", chars "slice", chars "slices",
   chars "piece", chars "pieces", chars "pcs",
   chars "chopped", chars "diced", chars "minced", chars "sliced", chars "fresh",
   chars "dried", chars "ground", chars "crushed", chars "grated",
   chars "shredded", chars "melted", chars "softened", chars "beaten", chars "whisked",
   chars "toasted", chars "roasted",
   chars "leaves", chars "leaf", chars "stalks", chars "stalk", chars "sprig",
   chars "sprigs", chars "florets", chars "floret",
   chars "large", chars "medium", chars "small", chars "whole", chars "half",
   chars "quarter", chars "mini", chars "extra", chars "jumbo",
   chars "to",
   chars "pure", chars "organic", chars "natural", chars "raw", chars "unbleached",
   chars "free", chars "range", chars "cage",
   chars "grade", chars "quality", chars "premium", chars "fancy", chars "select",
   chars "choice",
   chars "all-purpose", chars "purpose", chars "all", chars "light", chars "dark",
   chars "unsalted", chars "salted", chars "sweetened",
   chars "unsweetened", chars "plain", chars "regular", chars "low", chars "fat",
   chars "sodium", chars "reduced",
   chars "optional", chars "variation"]

/-- The numeral/fraction test of the word loop (line 87):
`word.replace('.', '').replace('/', '').isdigit()`. -/
def isNumberToken (w : List Char) : Bool :=
  let w2 := w.filter (fun c => !(decide (c = '.') || decide (c = '/')))
  decide (w2 ≠ []) && w2.all pyDigit

/-- One word survives the filtering loop (lines 85-95) iff it is not a
numeral token, not a stopword, and has no parenthesis character. -/
def keepWord (w : List Char) : Bool :=
  !isNumberToken w && !(decide (w ∈ remove_words)) &&
    !(decide ('(' ∈ w) || decide (')' ∈ w))

/-- Embedding of `normalize_ingredient_text` (source lines 34-99). -/
def normalize_ingredient_text (ingredient_text : List Char) : List Char :=
  let text := pyStrip (lowerStr ingredient_text)
  let text2 := stripLeadingPhrase text
  let filtered := (pySplit text2).filter keepWord
  pyStrip (joinSpace filtered)

example : normalize_ingredient_text (chars "2 cups all-purpose flour") = chars "flour" := by
  decide
example : normalize_ingredient_text (chars "1 to 2 jalapenos") = chars "jalapenos" := by
  decide
example : normalize_ingredient_text (chars "fresh juice of lemon") = chars "juice of lemon" := by
  decide
example : normalize_ingredient_text (chars "juice of lemon") = chars "lemon" := by
  decide

theorem mem_of_head?_eq {l : List Char} {c : Char} (h : l.head? = some c) : c ∈ l := by
  cases l with
  | nil => simp at h
  | cons a as =>
    simp only [List.head?_cons, Option.some.injEq] at h
    rw [← h]
    exact List.mem_cons_self _ _

theorem mem_of_getLast?_eq {l : List Char} {c : Char} (h : l.getLast? = some c) : c ∈ l := by
  have hm : c ∈ l.getLast? := by rw [h]; rfl
  rcases List.mem_getLast?_eq_getLast hm with ⟨hne, heq⟩
  rw [heq]
  exact List.getLast_mem hne

theorem mem_stripLeadingPhrase {t : List Char} {c : Char}
    (h : c ∈ stripLeadingPhrase t) : c ∈ t := by
  unfold stripLeadingPhrase at h
  cases hf : phrasePrefixList.find? (fun p => p.isPrefixOf t) with
  | none => rw [hf] at h; exact h
  | some p =>
    rw [hf] at h
    exact List.drop_subset _ _ h

theorem normalize_idem_of_no_leading_phrase (x : List Char)
    (h : ∀ p ∈ phrasePrefixList, p.isPrefixOf (normalize_ingredient_text x) = false) :
    normalize_ingredient_text (normalize_ingredient_text x) = normalize_ingredient_text x := by
  have hy : normalize_ingredient_text x =
      pyStrip (joinSpace ((pySplit (stripLeadingPhrase (pyStrip (lowerStr x)))).filter
        keepWord)) := rfl
  set F := (pySplit (stripLeadingPhrase (pyStrip (lowerStr x)))).filter keepWord with hF
  have htokne : ∀ t ∈ F, t ≠ [] := fun t ht => (pySplit_tokens (List.mem_of_mem_filter ht)).1
  have htokns : ∀ t ∈ F, ∀ c ∈ t, pySpace c = false := fun t ht c hc =>
    ((pySplit_tokens (List.mem_of_mem_filter ht)).2 c hc).2
  have htoklow : ∀ t ∈ F, ∀ c ∈ t, pyLower c = c := by
    intro t ht c hc
    have hc2 := ((pySplit_tokens (List.mem_of_mem_filter ht)).2 c hc).1
    have hc3 : c ∈ pyStrip (lowerStr x) := mem_stripLeadingPhrase hc2
    have hc4 : c ∈ lowerStr x := mem_of_mem_pyStrip hc3
    rcases List.mem_map.mp hc4 with ⟨d, _, rfl⟩
    exact pyLower_idem d
  by_cases hFnil : F = []
  · rw [hy, hFnil]
    decide
  · have hjoin_strip : pyStrip (joinSpace F) = joinSpace F := by
      apply pyStrip_eq_self
      · intro c hc
        rcases head?_joinSpace hFnil htokne hc with ⟨t, ht, hth⟩
        exact htokns t ht c (mem_of_head?_eq hth)
      · intro c hc
        rcases getLast?_joinSpace hFnil htokne hc with ⟨t, ht, htl⟩
        exact htokns t ht c (mem_of_getLast?_eq htl)
    have hy2 : normalize_ingredient_text x = joinSpace F := by rw [hy, hjoin_strip]
    have hlow : lowerStr (joinSpace F) = joinSpace F := map_eq_self_of_fixed (by
      intro c hc
      rcases mem_joinSpace hc with rfl | ⟨t, ht, hct⟩
      · decide
      · exact htoklow t ht c hct)
    have hphrase : stripLeadingPhrase (joinSpace F) = joinSpace F := by
      unfold stripLeadingPhrase
      have hnone : phrasePrefixList.find? (fun p => p.isPrefixOf (joinSpace F)) = none := by
        rw [List.find?_eq_none]
        intro p hp
        rw [← hy2]
        simp [h p hp]
      rw [hnone]
    have hsplit : pySplit (joinSpace F) = F := pySplit_joinSpace F htokne htokns
    have hfilter : F.filter keepWord = F := by
      rw [hF, List.filter_filter]
      exact List.filter_congr (fun a _ => Bool.and_self _)
    have hsecond : normalize_ingredient_text (joinSpace F) =
        pyStrip (joinSpace ((pySplit (stripLeadingPhrase (pyStrip
          (lowerStr (joinSpace F))))).filter keepWord)) := rfl
    rw [hy2, hsecond, hlow, hjoin_strip, hphrase, hsplit, hfilter, hjoin_strip]

/-!
Embedding of the config tables `app/config/ingredient_aliases.py` and
`app/config/fresh_weights.py`, and of the store model
(`app/models/*.py`, `app/crud/*.py`).
-/

/-- Embedding of `INGREDIENT_ALIAS_SEEDS`: canonical name to alias spellings. -/
def INGREDIENT_ALIAS_SEEDS : List (List Char × List (List Char)) :=
  [(chars "green onion",
    [chars "scallion", chars "scallions", chars "spring onion", chars "spring onions", chars "green onions"]),
   (chars "onion",
    [chars "onions", chars "yellow onion", chars "yellow onions", chars "white onion", chars "white onions", chars "sweet onion", chars "sweet onions", chars "cooking onion", chars "cooking onions"]),
   (chars "red onion",
    [chars "red onions", chars "purple onion", chars "purple onions"]),
   (chars "shallot",
    [chars "shallots", chars "eschallot", chars "eschallots"]),
   (chars "garlic",
    [chars "garlic clove", chars "garlic cloves"]),
   (chars "chicken breast",
    [chars "chicken breasts", chars "boneless chicken breast", chars "boneless chicken breasts", chars "skinless chicken breast", chars "skinless chicken breasts", chars "boneless skinless chicken breast", chars "boneless skinless chicken breasts"]),
   (chars "chicken thigh",
    [chars "chicken thighs", chars "boneless chicken thigh", chars "boneless chicken thighs", chars "skinless chicken thigh", chars "skinless chicken thighs", chars "boneless skinless chicken thigh", chars "boneless skinless chicken thighs"]),
   (chars "chicken leg",
    [chars "chicken legs", chars "drumstick", chars "drumsticks"]),
   (chars "bell pepper",
    [chars "bell peppers", chars "capsicum", chars "capsicums", chars "sweet pepper", chars "sweet peppers"]),
   (chars "red bell pepper",
    [chars "red bell peppers", chars "red pepper", chars "red peppers", chars "red capsicum"]),
   (chars "green bell pepper",
    [chars "green bell peppers", chars "green pepper", chars "green peppers", chars "green capsicum"]),
   (chars "jalapeño",
    [chars "jalapeno", chars "jalapenos", chars "jalapeños", chars "jalapeño pepper", chars "jalapeño peppers", chars "jalapeno pepper", chars "jalapeno peppers"]),
   (chars "carrot",
    [chars "carrots", chars "baby carrot", chars "baby carrots"]),
   (chars "potato",
    [chars "potatoes", chars "white potato", chars "white potatoes", chars "russet potato", chars "russet potatoes"]),
   (chars "sweet potato",
    [chars "sweet potatoes", chars "yam", chars "yams"]),
   (chars "beet",
    [chars "beets", chars "beetroot", chars "beetroots"]),
   (chars "broccoli",
    [chars "broccoli floret", chars "broccoli florets", chars "broccoli crown", chars "broccoli crowns"]),
   (chars "brussels sprout",
    [chars "brussels sprouts", chars "brussel sprout", chars "brussel sprouts"]),
   (chars "mushroom",
    [chars "mushrooms", chars "button mushroom", chars "button mushrooms", chars "cremini mushroom", chars "cremini mushrooms", chars "crimini mushroom", chars "crimini mushrooms", chars "white mushroom", chars "white mushrooms"]),
   (chars "shiitake mushroom",
    [chars "shiitake mushrooms", chars "shiitake", chars "shiitakes"]),
   (chars "portobello mushroom",
    [chars "portobello mushrooms", chars "portabella mushroom", chars "portabella mushrooms", chars "portobella mushroom", chars "portobella mushrooms"]),
   (chars "spinach",
    [chars "baby spinach", chars "fresh spinach"]),
   (chars "kale",
    [chars "curly kale", chars "lacinato kale", chars "dinosaur kale"]),
   (chars "lettuce",
    [chars "romaine lettuce", chars "romaine", chars "iceberg lettuce", chars "iceberg", chars "boston lettuce", chars "butter lettuce"]),
   (chars "tomato",
    [chars "tomatoes", chars "roma tomato", chars "roma tomatoes", chars "plum tomato", chars "plum tomatoes"]),
   (chars "cherry tomato",
    [chars "cherry tomatoes"]),
   (chars "grape tomato",
    [chars "grape tomatoes"]),
   (chars "cilantro",
    [chars "coriander", chars "coriander leaves", chars "fresh cilantro", chars "fresh coriander"]),
   (chars "parsley",
    [chars "flat leaf parsley", chars "italian parsley", chars "curly parsley", chars "fresh parsley"]),
   (chars "basil",
    [chars "fresh basil", chars "sweet basil"]),
   (chars "mint",
    [chars "fresh mint", chars "spearmint"]),
   (chars "thyme",
    [chars "fresh thyme"]),
   (chars "rosemary",
    [chars "fresh rosemary"]),
   (chars "dill",
    [chars "fresh dill", chars "dill weed"]),
   (chars "shrimp",
    [chars "prawns", chars "prawn", chars "large shrimp", chars "jumbo shrimp"]),
   (chars "salmon",
    [chars "salmon fillet", chars "salmon fillets", chars "salmon steak", chars "atlantic salmon"]),
   (chars "tuna",
    [chars "tuna steak", chars "tuna steaks", chars "ahi tuna"]),
   (chars "avocado",
    [chars "avocados", chars "hass avocado", chars "hass avocados"]),
   (chars "lemon",
    [chars "lemons"]),
   (chars "lime",
    [chars "limes"]),
   (chars "ginger",
    [chars "fresh ginger", chars "ginger root", chars "ginger knob"]),
   (chars "egg",
    [chars "eggs", chars "large egg", chars "large eggs"]),
   (chars "tofu",
    [chars "firm tofu", chars "extra firm tofu", chars "silken tofu", chars "soft tofu"])]

/-- Embedding of `MANUAL_FRESH_WEIGHTS`: grams per unit. -/
def MANUAL_FRESH_WEIGHTS : List (List Char × ℚ) :=
  [(chars "chicken breast", 340),
   (chars "chicken thigh", 150),
   (chars "chicken leg", 200),
   (chars "pork chop", 200),
   (chars "pork tenderloin", 450),
   (chars "beef steak", 225),
   (chars "ground beef", 450),
   (chars "ground turkey", 450),
   (chars "ground chicken", 450),
   (chars "bacon", 450),
   (chars "sausage", 75),
   (chars "shrimp", 15),
   (chars "salmon", 170),
   (chars "cod", 150),
   (chars "tilapia", 120),
   (chars "tuna", 150),
   (chars "carrot", 60),
   (chars "bell pepper", 120),
   (chars "red bell pepper", 120),
   (chars "green bell pepper", 120),
   (chars "jalapeño", 15),
   (chars "serrano pepper", 10),
   (chars "poblano pepper", 150),
   (chars "anaheim pepper", 100),
   (chars "habanero pepper", 10),
   (chars "onion", 150),
   (chars "red onion", 150),
   (chars "yellow onion", 150),
   (chars "white onion", 150),
   (chars "green onion", 15),
   (chars "scallion", 15),
   (chars "shallot", 40),
   (chars "leek", 100),
   (chars "tomato", 150),
   (chars "cherry tomato", 15),
   (chars "grape tomato", 10),
   (chars "potato", 200),
   (chars "sweet potato", 200),
   (chars "zucchini", 200),
   (chars "cucumber", 300),
   (chars "broccoli", 150),
   (chars "cauliflower", 500),
   (chars "brussels sprout", 20),
   (chars "celery", 40),
   (chars "garlic", 5),
   (chars "ginger", 50),
   (chars "mushroom", 18),
   (chars "portobello mushroom", 100),
   (chars "shiitake mushroom", 15),
   (chars "spinach", 30),
   (chars "kale", 35),
   (chars "lettuce", 500),
   (chars "tomatillo", 60),
   (chars "fennel", 250),
   (chars "parsnip", 150),
   (chars "turnip", 150),
   (chars "bok choy", 500),
   (chars "baby bok choy", 200),
   (chars "butternut squash", 700),
   (chars "acorn squash", 500),
   (chars "artichoke", 150),
   (chars "okra", 15),
   (chars "green bean", 10),
   (chars "asparagus", 20),
   (chars "corn", 200),
   (chars "eggplant", 450),
   (chars "radish", 15),
   (chars "beet", 100),
   (chars "apple", 180),
   (chars "banana", 120),
   (chars "orange", 140),
   (chars "lemon", 58),
   (chars "lime", 44),
   (chars "avocado", 150),
   (chars "strawberry", 15),
   (chars "blueberry", 1),
   (chars "raspberry", 1),
   (chars "mango", 200),
   (chars "pineapple", 900),
   (chars "pear", 180),
   (chars "peach", 150),
   (chars "plum", 70),
   (chars "grape", 5),
   (chars "cherry", 8),
   (chars "nectarine", 140),
   (chars "apricot", 45),
   (chars "fig", 40),
   (chars "kiwi", 75),
   (chars "pomegranate", 250),
   (chars "basil", 25),
   (chars "cilantro", 25),
   (chars "parsley", 30),
   (chars "mint", 20),
   (chars "thyme", 10),
   (chars "rosemary", 15),
   (chars "dill", 20),
   (chars "lamb chop", 125),
   (chars "duck breast", 200),
   (chars "scallop", 35),
   (chars "egg", 50),
   (chars "tofu", 350),
   (chars "tempeh", 240)]

/-- Embedding of `get_manual_weight` (fresh_weights.py lines 133-145); the `weights`
argument embeds the module-level `MANUAL_FRESH_WEIGHTS` table. -/
def get_manual_weight (weights : List (List Char × ℚ)) (ingredient_name : List Char) :
    Option ℚ :=
  dictLookup weights (pyStrip (lowerStr ingredient_name))

/-- Python exceptions relevant to the embedded code. -/
inductive PyErr where
  | valueError
  | zeroDivisionError
  deriving DecidableEq, Repr

/-- Row of `ingredient_references` (`app/models/ingredient_reference.py`); ids
are embedded as counter-issued naturals standing for the generated UUIDs. -/
structure IngredientReference where
  id : Nat
  name : List Char
  normalized_name : List Char
  avg_weight_grams : Option ℚ
  weight_source : Option (List Char)
  deriving DecidableEq, Repr

/-- Row of `ingredient_aliases` (`app/models/ingredient_alias.py`). -/
structure IngredientAlias where
  «alias» : List Char
  ingredient_id : Nat
  deriving DecidableEq, Repr

/-- Row of `ingredient_substitutions` (`app/models/ingredient_substitution.py`). -/
structure IngredientSubstitution where
  original_ingredient_id : Nat
  substitute_ingredient_id : Nat
  ratio : ℚ
  quality_score : Int
  notes : Option (List Char)
  deriving DecidableEq, Repr

/-- The persistent store visible to the engine: the three row lists in insert
order plus the id counter. -/
structure Store where
  ingredients : List IngredientReference
  aliases : List IngredientAlias
  substitutions : List IngredientSubstitution
  next_id : Nat
  deriving DecidableEq, Repr

/-- Embedding of `get_ingredient_by_id` (crud/ingredient_reference.py lines 25-30). -/
def get_ingredient_by_id (db : Store) (ingredient_id : Nat) : Option IngredientReference :=
  db.ingredients.find? (fun i => decide (i.id = ingredient_id))

/-- Embedding of `get_ingredient_by_name` (crud/ingredient_reference.py lines 33-38). -/
def get_ingredient_by_name (db : Store) (name : List Char) : Option IngredientReference :=
  db.ingredients.find? (fun i => decide (i.name = name))

/-- Embedding of `get_ingredient_by_normalized_name` (crud/ingredient_reference.py lines 41-46). -/
def get_ingredient_by_normalized_name (db : Store) (normalized_name : List Char) :
    Option IngredientReference :=
  db.ingredients.find? (fun i => decide (i.normalized_name = normalized_name))

/-- Embedding of `get_alias_by_text` (crud/ingredient_alias.py lines 23-28). -/
def get_alias_by_text (db : Store) (alias_text : List Char) : Option IngredientAlias :=
  db.aliases.find? (fun a => decide (a.«alias» = alias_text))

/-- Embedding of `create_ingredient_reference` (crud/ingredient_reference.py lines 7-22);
the resolver always passes `normalized_name` explicitly. -/
def create_ingredient_reference (db : Store) (name normalized_name : List Char) :
    IngredientReference × Store :=
  let ing : IngredientReference := ⟨db.next_id, name, normalized_name, none, none⟩
  (ing, { db with ingredients := db.ingredients ++ [ing], next_id := db.next_id + 1 })

/-- Embedding of `create_ingredient_alias` (crud/ingredient_alias.py lines 7-20). -/
def create_ingredient_alias (db : Store) (alias_text : List Char) (ingredient_id : Nat) :
    Store :=
  { db with aliases := db.aliases ++ [⟨alias_text, ingredient_id⟩] }

/-- Embedding of `update_avg_weight` (crud/ingredient_reference.py lines 80-107): raises
`ValueError` when the id is absent, else persists weight and source. -/
def update_avg_weight (db : Store) (ingredient_id : Nat) (avg_weight_grams : ℚ)
    (weight_source : List Char) : Except PyErr Store :=
  match get_ingredient_by_id db ingredient_id with
  | none => .error .valueError
  | some _ =>
    .ok { db with
      ingredients := db.ingredients.map (fun i =>
        if i.id = ingredient_id then
          { i with avg_weight_grams := some avg_weight_grams,
                   weight_source := some weight_source }
        else i) }

/-- Embedding of `get_substitutions_for_ingredient` (crud/ingredient_substitution.py lines
7-17): all rules for the original ingredient, in stored order. -/
def get_substitutions_for_ingredient (db : Store) (ingredient_id : Nat) :
    List IngredientSubstitution :=
  db.substitutions.filter (fun s => decide (s.original_ingredient_id = ingredient_id))

/-!
Embedding of the resolver (`app/api/v1/endpoints_recipes.py`, lines 212-328).
The module-level tables `INGREDIENT_ALIAS_SEEDS` and `MANUAL_FRESH_WEIGHTS`
are passed as the `seeds` and `weights` arguments.
-/

/-- Embedding of `_find_canonical_in_seeds` (lines 212-220). -/
def find_canonical_in_seeds (seeds : List (List Char × List (List Char)))
    (name : List Char) : Option (List Char) :=
  (seeds.find? (fun kv => decide (name ∈ kv.2))).map (fun kv => kv.1)

/-- Embedding of `_singularize_candidates` (lines 223-248). -/
def singularize_candidates (name : List Char) : List (List Char) :=
  let ws := pySplit name
  if ws.length = 1 then
    (if (chars "ies").isSuffixOf name then [name.take (name.length - 3) ++ chars "y"]
     else []) ++
    (if (chars "oes").isSuffixOf name then [name.take (name.length - 2)] else []) ++
    (if (chars "s").isSuffixOf name ∧ ¬ (chars "ss").isSuffixOf name ∧
        ¬ (chars "ies").isSuffixOf name then [name.take (name.length - 1)] else [])
  else if ws.length > 1 then
    match ws.getLast? with
    | some last =>
      (if (chars "ies").isSuffixOf last then
        [joinSpace (ws.dropLast ++ [last.take (last.length - 3) ++ chars "y"])] else []) ++
      (if (chars "oes").isSuffixOf last then
        [joinSpace (ws.dropLast ++ [last.take (last.length - 2)])] else []) ++
      (if (chars "s").isSuffixOf last ∧ ¬ (chars "ss").isSuffixOf last ∧
          ¬ (chars "ies").isSuffixOf last then
        [joinSpace (ws.dropLast ++ [last.take (last.length - 1)])] else [])
    | none => []
  else []

/-- Embedding of `_get_or_create_canonical` (lines 251-260). -/
def get_or_create_canonical (db : Store) (canonical_name : List Char) :
    IngredientReference × Store :=
  match get_ingredient_by_name db canonical_name with
  | some ing => (ing, db)
  | none =>
    match get_ingredient_by_normalized_name db canonical_name with
    | some ing => (ing, db)
    | none => create_ingredient_reference db canonical_name canonical_name

/-- Embedding of `find_or_create_ingredient` (lines 263-328): the seven-tier resolver.
Returns the resolved row (`none` only when a stored alias dangles) and the
updated store. -/
def find_or_create_ingredient (seeds : List (List Char × List (List Char)))
    (weights : List (List Char × ℚ)) (db : Store) (normalized_name : List Char) :
    Option IngredientReference × Store :=
  match get_ingredient_by_name db normalized_name with
  | some ing => (some ing, db)
  | none =>
  match get_ingredient_by_normalized_name db normalized_name with
  | some ing => (some ing, db)
  | none =>
  match get_alias_by_text db normalized_name with
  | some al => (get_ingredient_by_id db al.ingredient_id, db)
  | none =>
  match find_canonical_in_seeds seeds normalized_name with
  | some canonical_name =>
    let r := get_or_create_canonical db canonical_name
    (some r.1, create_ingredient_alias r.2 normalized_name r.1.id)
  | none =>
  match (singularize_candidates normalized_name).find?
      (fun c => (dictLookup weights c).isSome) with
  | some candidate =>
    let r := get_or_create_canonical db candidate
    (some r.1, create_ingredient_alias r.2 normalized_name r.1.id)
  | none =>
  match (singularize_candidates normalized_name).findSome? (fun c =>
      match get_ingredient_by_name db c with
      | some ing => some ing
      | none => get_ingredient_by_normalized_name db c) with
  | some ing => (some ing, create_ingredient_alias db normalized_name ing.id)
  | none =>
  if (dictLookup weights normalized_name).isSome then
    let r := create_ingredient_reference db normalized_name normalized_name
    (some r.1, r.2)
  else
    let r := create_ingredient_reference db normalized_name normalized_name
    (some r.1, r.2)

example : singularize_candidates (chars "carrots") = [chars "carrot"] := by decide
example : singularize_candidates (chars "cherries") = [chars "cherry"] := by decide
example : singularize_candidates (chars "potatoes") =
    [chars "potato", chars "potatoe"] := by decide
example : singularize_candidates (chars "green onions") = [chars "green onion"] := by decide
example : find_canonical_in_seeds INGREDIENT_ALIAS_SEEDS (chars "scallions") =
    some (chars "green onion") := by decide

/-!
Embedding of `extract_weight_from_text` (`app/api/services/weight_parser.py`,
lines 14-45). The regex `([0-9.]+)\s*(lb|lbs|pound|pounds|oz|ounce|ounces|g|
grams|gram|kg|kilo|kilograms|kilogram)\b` with `IGNORECASE` is embedded as a
direct scan: the character classes `[0-9.]`, whitespace, and the leading
letters of the unit alternatives are pairwise disjoint, so greedy maximal
munch needs no backtracking; alternatives are tried in the written order and
the first whose word boundary holds wins, as the Python engine does. -/

/-- The `[0-9.]` character class. -/
def digitDot (c : Char) : Bool := pyDigit c || decide (c = '.')

/-- A regex word character (`\b` boundary test), ASCII. -/
def wordChar (c : Char) : Bool :=
  pyDigit c || (65 ≤ c.toNat && c.toNat ≤ 90) || (97 ≤ c.toNat && c.toNat ≤ 122) ||
    decide (c = '_')

/-- The unit alternatives of the pattern, in regex order. -/
def weightUnitAlts : List (List Char) :=
  [chars "lb", chars "lbs", chars "pound", chars "pounds", chars "oz", chars "ounce",
   chars "ounces", chars "g", chars "grams", chars "gram", chars "kg", chars "kilo",
   chars "kilograms", chars "kilogram"]

/-- Case-insensitive literal match of `alt` at the start of `rest`. -/
def matchAltCI (alt rest : List Char) : Bool :=
  decide (lowerStr (rest.take alt.length) = alt)

/-- The `\b` test after a match of length `len` at the start of `rest`. -/
def boundaryOk (rest : List Char) (len : Nat) : Bool :=
  match (rest.drop len).head? with
  | none => true
  | some c => !wordChar c

/-- First unit alternative matching at `rest` (with its boundary); returns the
matched slice in original case. -/
def findWeightUnitAlt (rest : List Char) : Option (List Char) :=
  (weightUnitAlts.find? (fun alt => matchAltCI alt rest && boundaryOk rest alt.length)).map
    (fun alt => rest.take alt.length)

/-- Attempt the whole pattern at the start of `l`: a nonempty `[0-9.]+` run,
optional whitespace, then a unit alternative with boundary. -/
def tryWeightMatchAt (l : List Char) : Option (List Char × List Char) :=
  let ds := l.takeWhile digitDot
  if ds = [] then none
  else
    let rest1 := l.drop ds.length
    let rest2 := rest1.drop (rest1.takeWhile pySpace).length
    (findWeightUnitAlt rest2).map (fun umatch => (ds, umatch))

/-- Leftmost match of the weight pattern: the scan position advances one
character on failure, as `re` does. -/
def scanWeightPattern : List Char → Option (List Char × List Char)
  | [] => none
  | c :: rest =>
    match tryWeightMatchAt (c :: rest) with
    | some r => some r
    | none => scanWeightPattern rest

/-- Value of a digit string. -/
def digitsToNat (ds : List Char) : Nat :=
  ds.foldl (fun acc c => acc * 10 + (c.toNat - 48)) 0

/-- Embedding of Python's `float()` on a nonempty `[0-9.]+` string: defined
iff it has at most one dot and at least one digit (`float(".")`,
`float("1.2.3")` raise `ValueError`). -/
def pyFloatOfDigitDot (s : List Char) : Option ℚ :=
  if s.count '.' ≤ 1 ∧ s.any pyDigit then
    let ip := s.takeWhile (fun c => decide (c ≠ '.'))
    let fp := (s.drop ip.length).drop 1
    some ((digitsToNat ip : ℚ) + (digitsToNat fp : ℚ) / (10 : ℚ) ^ fp.length)
  else none

/-- Embedding of `extract_weight_from_text` (weight_parser.py lines 14-45). An
unparseable captured quantity raises `ValueError` (the uncaught
`float(quantity_str)` of line 38). -/
def extract_weight_from_text (ingredient_text : List Char) :
    Except PyErr (Option (ℚ × List Char)) :=
  if ingredient_text = [] then .ok none
  else
    match scanWeightPattern ingredient_text with
    | none => .ok none
    | some qu =>
      match pyFloatOfDigitDot qu.1 with
      | none => .error .valueError
      | some q => .ok (some (q, lowerStr qu.2))

deriving instance DecidableEq for Except

example : extract_weight_from_text (chars "") = .ok none := by decide
example : extract_weight_from_text (chars "two breasts") = .ok none := by decide
example : extract_weight_from_text (chars "1.2.3 lb of beef") = .error .valueError := by
  decide
example : ∃ q : ℚ, extract_weight_from_text (chars "2 breasts (about 1.5 lb)") =
    .ok (some (q, chars "lb")) := ⟨_, rfl⟩
example : ∃ q : ℚ, extract_weight_from_text (chars "680G flank steak") =
    .ok (some (q, chars "g")) := ⟨_, rfl⟩

/-!
Embedding of `get_weight_for_count_ingredient`
(`app/api/services/fresh_ingredient_service.py`, lines 25-109). The module
tables and the USDA client are the `weights` and `usda` arguments; the USDA
call is the external-provider boundary, a name-to-grams partial function.
-/

/-- Python truthiness of an optional float (`None` and `0.0` are falsy). -/
def pyTruthyNum : Option ℚ → Bool
  | some w => decide (w ≠ 0)
  | none => false

/-- Python `x or dflt` for an optional string (`None` and `""` are falsy). -/
def pyOrStr (o : Option (List Char)) (dflt : List Char) : List Char :=
  match o with
  | some s => if s = [] then dflt else s
  | none => dflt

/-- Result record of `get_weight_for_count_ingredient`. -/
structure WeightResult where
  quantity : ℚ
  unit : List Char
  source : List Char
  deriving DecidableEq, Repr

/-- Tiers 2-3 of the lookup (lines 80-94): manual table, then USDA. -/
def weight_tier23 (weights : List (List Char × ℚ)) (usda : List Char → Option ℚ)
    (ingredient_name : List Char) : Option (ℚ × List Char) :=
  let manual_weight := get_manual_weight weights ingredient_name
  if pyTruthyNum manual_weight then some (manual_weight.getD 0, chars "manual")
  else
    let usda_weight := usda ingredient_name
    if pyTruthyNum usda_weight then some (usda_weight.getD 0, chars "usda")
    else none

/-- The 3-tier lookup block (lines 63-94): first tier whose per-unit weight is
truthy, with its source name; `none` when the final
`if weight_per_unit and source:` gate fails. -/
def weight_tier_lookup (weights : List (List Char × ℚ)) (usda : List Char → Option ℚ)
    (ingredient_name : List Char) (count : ℚ) (original_text : List Char) :
    Except PyErr (Option (ℚ × List Char)) :=
  match extract_weight_from_text original_text with
  | .error e => .error e
  | .ok none => .ok (weight_tier23 weights usda ingredient_name)
  | .ok (some hint) =>
    if count = 0 then .error .zeroDivisionError
    else
      let conversion := convert_to_base_unit hint.1 hint.2 (some ingredient_name)
      let w := conversion.quantity / count
      if w ≠ 0 then .ok (some (w, chars "recipe_text"))
      else .ok (weight_tier23 weights usda ingredient_name)

/-- Embedding of `get_weight_for_count_ingredient` (lines 25-109). -/
def get_weight_for_count_ingredient (weights : List (List Char × ℚ))
    (usda : List Char → Option ℚ) (db : Store) (ingredient_ref : IngredientReference)
    (count : ℚ) (original_text : List Char) :
    Except PyErr (Option WeightResult × Store) :=
  if pyTruthyNum ingredient_ref.avg_weight_grams then
    .ok (some ⟨count * ingredient_ref.avg_weight_grams.getD 0, chars "g",
      pyOrStr ingredient_ref.weight_source (chars "cached")⟩, db)
  else
    match weight_tier_lookup weights usda ingredient_ref.name count original_text with
    | .error e => .error e
    | .ok none => .ok (none, db)
    | .ok (some ws) =>
      match update_avg_weight db ingredient_ref.id ws.1 ws.2 with
      | .error e => .error e
      | .ok db2 => .ok (some ⟨count * ws.1, chars "g", ws.2⟩, db2)

/-!
Embedding of the matcher records and of `find_substitution_for_ingredient` and
the categorization loop of `match_all_recipes`
(`app/api/services/recipe_matcher.py`).
-/

/-- One product contribution tracked by an inventory line. -/
structure ProductContribution where
  product_name : List Char
  quantity : ℚ
  unit : List Char
  deriving DecidableEq, Repr

/-- Embedding of `InventoryIngredient` (recipe_matcher.py lines 34-41). -/
structure InventoryIngredient where
  ingredient_id : Nat
  ingredient_name : List Char
  total_quantity : ℚ
  base_unit : List Char
  product_references : List ProductContribution
  deriving DecidableEq, Repr

/-- Embedding of `ingredient_id in inventory` on the inventory dict. -/
def invContains (inventory : List (Nat × InventoryIngredient)) (k : Nat) : Bool :=
  inventory.any (fun kv => decide (kv.1 = k))

/-- Embedding of `IngredientAvailability` (schemas/recipe_match.py). -/
structure IngredientAvailability where
  ingredient_id : Nat
  ingredient_name : List Char
  required_quantity : ℚ
  available_quantity : ℚ
  unit : List Char
  is_sufficient : Bool
  deriving DecidableEq, Repr

/-- Embedding of `SubstitutionSuggestion` (schemas/recipe_match.py). -/
structure SubstitutionSuggestion where
  original_ingredient_id : Nat
  original_ingredient_name : List Char
  substitute_ingredient_id : Nat
  substitute_ingredient_name : List Char
  ratio : ℚ
  quality_score : Int
  notes : Option (List Char)
  deriving DecidableEq, Repr

/-- Embedding of `RecipeMatchResult` (schemas/recipe_match.py). -/
structure RecipeMatchResult where
  recipe_id : Nat
  recipe_title : List Char
  match_type : List Char
  availability_percent : ℚ
  ingredient_availability : List IngredientAvailability
  missing_ingredients : List (List Char)
  suggested_substitutions : List SubstitutionSuggestion
  deriving DecidableEq, Repr

/-- Embedding of `RecipeMatchResponse` (schemas/recipe_match.py). -/
structure RecipeMatchResponse where
  can_make_now : List RecipeMatchResult
  missing_one : List RecipeMatchResult
  missing_few : List RecipeMatchResult
  with_substitutions : List RecipeMatchResult
  total_recipes_checked : Nat
  deriving DecidableEq, Repr

/-- The rule loop of `find_substitution_for_ingredient` (lines 280-301). -/
def find_substitution_loop (db : Store) (ingredient_id : Nat)
    (inventory : List (Nat × InventoryIngredient)) :
    List IngredientSubstitution → Option SubstitutionSuggestion
  | [] => none
  | sub :: rest =>
    if sub.quality_score < 5 then find_substitution_loop db ingredient_id inventory rest
    else if invContains inventory sub.substitute_ingredient_id then
      match get_ingredient_by_id db sub.substitute_ingredient_id,
            get_ingredient_by_id db ingredient_id with
      | some substitute_ing, some original_ing =>
        some ⟨ingredient_id, original_ing.name, sub.substitute_ingredient_id,
              substitute_ing.name, sub.ratio, sub.quality_score, sub.notes⟩
      | _, _ => find_substitution_loop db ingredient_id inventory rest
    else find_substitution_loop db ingredient_id inventory rest

/-- Embedding of `find_substitution_for_ingredient` (recipe_matcher.py lines 265-301). -/
def find_substitution_for_ingredient (db : Store) (ingredient_id : Nat)
    (inventory : List (Nat × InventoryIngredient)) : Option SubstitutionSuggestion :=
  find_substitution_loop db ingredient_id inventory
    (get_substitutions_for_ingredient db ingredient_id)

/-- The categorization loop of `match_all_recipes` (recipe_matcher.py lines
323-339): buckets `(can_make_now, missing_one, missing_few,
with_substitutions)`, preserving the iteration order of `all_matches`. -/
def categorize_loop : List RecipeMatchResult →
    List RecipeMatchResult × List RecipeMatchResult × List RecipeMatchResult ×
      List RecipeMatchResult
  | [] => ([], [], [], [])
  | m :: rest =>
    let r := categorize_loop rest
    if m.availability_percent = 100 then (m :: r.1, r.2.1, r.2.2.1, r.2.2.2)
    else if m.missing_ingredients.length = 1 then (r.1, m :: r.2.1, r.2.2.1, r.2.2.2)
    else if 2 ≤ m.missing_ingredients.length ∧ m.missing_ingredients.length ≤ 3 then
      (r.1, r.2.1, m :: r.2.2.1, r.2.2.2)
    else if 0 < m.suggested_substitutions.length then (r.1, r.2.1, r.2.2.1, m :: r.2.2.2)
    else r

/-- The categorization step of `match_all_recipes` (lines 304-351) as a
function of the computed per-recipe match results. -/
def match_all_recipes_categorize (all_matches : List RecipeMatchResult) :
    RecipeMatchResponse :=
  let b := categorize_loop all_matches
  ⟨b.1, b.2.1, b.2.2.1, b.2.2.2, all_matches.length⟩

/-!
Claim theorems.
-/

/-- C2 counterexample: the unknown unit `"foobar"` is passed through
unchanged by `standardize_unit`, so it is neither `"unit"` nor any canonical
token, refuting "maps every unknown or blank input unit string to unit". -/
theorem claim_C2_counterexample :
    standardize_unit (chars "foobar") = chars "foobar" ∧
    chars "foobar" ∉ specCanonicalTokens := by
  constructor
  · decide
  · decide

/-- C2 (amended): `standardize_unit` maps every blank input (empty or
whitespace-only after lowering) to `"unit"`; every other input is mapped to a
canonical token or passed through as its lowercased, stripped self. -/
theorem claim_C2_amended :
    (∀ u : List Char, pyStrip (lowerStr u) = [] → standardize_unit u = chars "unit") ∧
    (∀ u : List Char, standardize_unit u ∈ specCanonicalTokens ∨
      standardize_unit u = pyStrip (lowerStr u)) := by
  constructor
  · intro u h
    rw [standardize_unit_eq_chain, h]
    rfl
  · intro u
    rw [standardize_unit_eq_chain]
    exact chain_canonical_or_id _

/-- Witness for C2 (amended) at blank and known inputs. -/
theorem claim_C2_witness :
    standardize_unit (chars "  ") = chars "unit" ∧
    (standardize_unit (chars "KG") ∈ specCanonicalTokens ∨
      standardize_unit (chars "KG") = pyStrip (lowerStr (chars "KG"))) :=
  ⟨claim_C2_amended.1 (chars "  ") (by decide), claim_C2_amended.2 (chars "KG")⟩

/-- C3 counterexample: word-level filtering can expose a phrase prefix, so a
second normalization pass strips further: `"fresh juice of lemon"` normalizes
to `"juice of lemon"`, which normalizes to `"lemon"`. -/
theorem claim_C3_counterexample :
    normalize_ingredient_text (normalize_ingredient_text (chars "fresh juice of lemon")) ≠
      normalize_ingredient_text (chars "fresh juice of lemon") := by
  decide

/-- C3 (amended): `normalize_ingredient_text` is idempotent on every input
whose normalized form does not begin with one of the five phrase prefixes. -/
theorem claim_C3_amended (x : List Char)
    (h : ∀ p ∈ phrasePrefixList, p.isPrefixOf (normalize_ingredient_text x) = false) :
    normalize_ingredient_text (normalize_ingredient_text x) = normalize_ingredient_text x :=
  normalize_idem_of_no_leading_phrase x h

/-- Witness for C3 (amended) at a concrete recipe line. -/
theorem claim_C3_witness :
    normalize_ingredient_text (normalize_ingredient_text
      (chars "2 cups all-purpose flour")) =
      normalize_ingredient_text (chars "2 cups all-purpose flour") :=
  claim_C3_amended (chars "2 cups all-purpose flour") (by decide)

/-- C8: the claim says weight-hint extraction never raises, but the captured
group `[0-9.]+` can be an unparseable numeral: on `"1.2.3 lb of beef"` the
uncaught `float("1.2.3")` raises `ValueError`. -/
theorem claim_C8_code_bug :
    extract_weight_from_text (chars "1.2.3 lb of beef") = .error .valueError := by
  decide

/-- C10: for units standardizing to a weight or discrete token, the
conversion result does not depend on the ingredient-name argument. -/
theorem claim_C10 (q : ℚ) (u : List Char) (n1 n2 : Option (List Char))
    (h : standardize_unit u ∈ specWeightTokens ∨ standardize_unit u ∈ specDiscreteTokens) :
    convert_to_base_unit q u n1 = convert_to_base_unit q u n2 := by
  unfold convert_to_base_unit
  by_cases hb : u = [] ∨ pyStrip u = []
  · rw [if_pos hb, if_pos hb]
  · rw [if_neg hb, if_neg hb]
    rw [standardize_unit_strip_lower u]
    rcases h with hw | hd
    · simp only [specWeightTokens, List.mem_cons, List.not_mem_nil, or_false] at hw
      rcases hw with he | he | he | he <;> rw [he] <;> rfl
    · simp only [specDiscreteTokens, List.mem_cons, List.not_mem_nil, or_false] at hd
      rcases hd with he | he <;> rw [he] <;> rfl

/-- Witness for C10: converting 7 kg is name-independent. -/
theorem claim_C10_witness :
    convert_to_base_unit 7 (chars "kg") (some (chars "milk")) =
      convert_to_base_unit 7 (chars "kg") none :=
  claim_C10 7 (chars "kg") (some (chars "milk")) none (by decide)

/-- C4 counterexample: two copies of the same unknown unit are reported
convertible by the same-token shortcut although neither lies in any dimension
class, refuting the claimed "if and only if". -/
theorem claim_C4_counterexample :
    can_convert_units (chars "foobar") (chars "foobar") = true ∧
    ¬ sameDimensionClass (chars "foobar") (chars "foobar") := by
  constructor
  · decide
  · decide

/-- C4 (amended): `can_convert_units` returns true iff the two units
standardize to the same token, or standardize into the same dimension class
(both weight, both volume, or both discrete). -/
theorem claim_C4_amended (a b : List Char) :
    can_convert_units a b = true ↔
      standardize_unit a = standardize_unit b ∨ sameDimensionClass a b := by
  unfold can_convert_units
  simp only [ne_eq]
  rw [show (standardize_unit (if ¬(if ¬a = [] then pyStrip a else []) = []
      then lowerStr (if ¬a = [] then pyStrip a else []) else [])) =
      standardize_unit (can_convert_arg a) from rfl]
  rw [show (standardize_unit (if ¬(if ¬b = [] then pyStrip b else []) = []
      then lowerStr (if ¬b = [] then pyStrip b else []) else [])) =
      standardize_unit (can_convert_arg b) from rfl]
  rw [standardize_can_convert_arg a, standardize_can_convert_arg b]
  unfold sameDimensionClass
  by_cases heq : standardize_unit a = standardize_unit b
  · rw [if_pos heq]
    simp [heq]
  · rw [if_neg heq]
    by_cases hw : (dictLookup WEIGHT_TO_GRAMS (standardize_unit a)).isSome = true ∧
        (dictLookup WEIGHT_TO_GRAMS (standardize_unit b)).isSome = true
    · rw [if_pos hw]
      simp only [true_iff]
      right; left
      exact ⟨(weight_key_spec a).mp hw.1, (weight_key_spec b).mp hw.2⟩
    · rw [if_neg hw]
      by_cases hv : (dictLookup VOLUME_TO_ML (standardize_unit a)).isSome = true ∧
          (dictLookup VOLUME_TO_ML (standardize_unit b)).isSome = true
      · rw [if_pos hv]
        simp only [true_iff]
        right; right; left
        exact ⟨(volume_key_spec a).mp hv.1, (volume_key_spec b).mp hv.2⟩
      · rw [if_neg hv]
        by_cases hd : standardize_unit a ∈ DISCRETE_UNITS ∧
            standardize_unit b ∈ DISCRETE_UNITS
        · rw [if_pos hd]
          simp only [true_iff]
          right; right; right
          rw [← discrete_units_eq_spec]
          exact hd
        · rw [if_neg hd]
          simp only [Bool.false_eq_true, false_iff]
          intro hcon
          rcases hcon with hc | ⟨ha, hb2⟩ | ⟨ha, hb2⟩ | ⟨ha, hb2⟩
          · exact heq hc
          · exact hw ⟨(weight_key_spec a).mpr ha, (weight_key_spec b).mpr hb2⟩
          · exact hv ⟨(volume_key_spec a).mpr ha, (volume_key_spec b).mpr hb2⟩
          · rw [← discrete_units_eq_spec] at ha hb2
            exact hd ⟨ha, hb2⟩

/-- Witness for C4 (amended) at concrete units. -/
theorem claim_C4_witness :
    can_convert_units (chars "kg") (chars "pounds") = true ↔
      standardize_unit (chars "kg") = standardize_unit (chars "pounds") ∨
        sameDimensionClass (chars "kg") (chars "pounds") :=
  claim_C4_amended (chars "kg") (chars "pounds")

/-- Bucket predicate of `can_make_now` under the loop's priority order. -/
def catCan (m : RecipeMatchResult) : Bool := decide (m.availability_percent = 100)

/-- Bucket predicate of `missing_one`. -/
def catOne (m : RecipeMatchResult) : Bool :=
  !catCan m && decide (m.missing_ingredients.length = 1)

/-- Bucket predicate of `missing_few`. -/
def catFew (m : RecipeMatchResult) : Bool :=
  !catCan m && !decide (m.missing_ingredients.length = 1) &&
    decide (2 ≤ m.missing_ingredients.length ∧ m.missing_ingredients.length ≤ 3)

/-- Bucket predicate of `with_substitutions`. -/
def catSub (m : RecipeMatchResult) : Bool :=
  !catCan m && !decide (m.missing_ingredients.length = 1) &&
    !decide (2 ≤ m.missing_ingredients.length ∧ m.missing_ingredients.length ≤ 3) &&
    decide (0 < m.suggested_substitutions.length)

theorem categorize_loop_eq (ms : List RecipeMatchResult) :
    categorize_loop ms =
      (ms.filter catCan, ms.filter catOne, ms.filter catFew, ms.filter catSub) := by
  induction ms with
  | nil => rfl
  | cons m rest ih =>
    unfold categorize_loop
    rw [ih]
    by_cases h1 : m.availability_percent = 100
    · rw [if_pos h1]
      simp [catCan, catOne, catFew, catSub, List.filter_cons, h1]
    · rw [if_neg h1]
      by_cases h2 : m.missing_ingredients.length = 1
      · rw [if_pos h2]
        simp [catCan, catOne, catFew, catSub, List.filter_cons, h1, h2]
      · rw [if_neg h2]
        by_cases h3 : 2 ≤ m.missing_ingredients.length ∧ m.missing_ingredients.length ≤ 3
        · rw [if_pos h3]
          simp [catCan, catOne, catFew, catSub, List.filter_cons, h1, h2, h3]
        · rw [if_neg h3]
          by_cases h4 : 0 < m.suggested_substitutions.length
          · rw [if_pos h4]
            simp [catCan, catOne, catFew, catSub, List.filter_cons, h1, h2, h3, h4]
          · rw [if_neg h4]
            simp [catCan, catOne, catFew, catSub, List.filter_cons, h1, h2, h3, h4]

/-- C5: the categorization of `match_all_recipes` is a first-match-wins
partition: membership in each bucket is characterized by the fixed priority
order; buckets are pairwise exclusive; a 2-3-missing recipe with an available
substitution lands only in `missing_few`; a recipe matching no predicate is
dropped from every bucket. -/
theorem claim_C5 (ms : List RecipeMatchResult) (m : RecipeMatchResult) :
    ((m ∈ (match_all_recipes_categorize ms).can_make_now ↔
        m ∈ ms ∧ m.availability_percent = 100) ∧
     (m ∈ (match_all_recipes_categorize ms).missing_one ↔
        m ∈ ms ∧ m.availability_percent ≠ 100 ∧ m.missing_ingredients.length = 1) ∧
     (m ∈ (match_all_recipes_categorize ms).missing_few ↔
        m ∈ ms ∧ m.availability_percent ≠ 100 ∧ m.missing_ingredients.length ≠ 1 ∧
          2 ≤ m.missing_ingredients.length ∧ m.missing_ingredients.length ≤ 3) ∧
     (m ∈ (match_all_recipes_categorize ms).with_substitutions ↔
        m ∈ ms ∧ m.availability_percent ≠ 100 ∧ m.missing_ingredients.length ≠ 1 ∧
          ¬(2 ≤ m.missing_ingredients.length ∧ m.missing_ingredients.length ≤ 3) ∧
          0 < m.suggested_substitutions.length)) ∧
    ((m ∈ (match_all_recipes_categorize ms).can_make_now →
        m ∉ (match_all_recipes_categorize ms).missing_one ∧
        m ∉ (match_all_recipes_categorize ms).missing_few ∧
        m ∉ (match_all_recipes_categorize ms).with_substitutions) ∧
     (m ∈ (match_all_recipes_categorize ms).missing_one →
        m ∉ (match_all_recipes_categorize ms).missing_few ∧
        m ∉ (match_all_recipes_categorize ms).with_substitutions) ∧
     (m ∈ (match_all_recipes_categorize ms).missing_few →
        m ∉ (match_all_recipes_categorize ms).with_substitutions)) ∧
    ((m ∈ ms ∧ m.availability_percent ≠ 100 ∧ m.missing_ingredients.length ≠ 1 ∧
        2 ≤ m.missing_ingredients.length ∧ m.missing_ingredients.length ≤ 3 ∧
        0 < m.suggested_substitutions.length) →
      m ∈ (match_all_recipes_categorize ms).missing_few ∧
        m ∉ (match_all_recipes_categorize ms).with_substitutions) ∧
    ((m.availability_percent ≠ 100 ∧ m.missing_ingredients.length ≠ 1 ∧
        ¬(2 ≤ m.missing_ingredients.length ∧ m.missing_ingredients.length ≤ 3) ∧
        m.suggested_substitutions.length = 0) →
      m ∉ (match_all_recipes_categorize ms).can_make_now ∧
      m ∉ (match_all_recipes_categorize ms).missing_one ∧
      m ∉ (match_all_recipes_categorize ms).missing_few ∧
      m ∉ (match_all_recipes_categorize ms).with_substitutions) := by
  have hc : m ∈ (match_all_recipes_categorize ms).can_make_now ↔
      m ∈ ms ∧ m.availability_percent = 100 := by
    simp [match_all_recipes_categorize, categorize_loop_eq, List.mem_filter, catCan]
  have ho : m ∈ (match_all_recipes_categorize ms).missing_one ↔
      m ∈ ms ∧ m.availability_percent ≠ 100 ∧ m.missing_ingredients.length = 1 := by
    simp [match_all_recipes_categorize, categorize_loop_eq, List.mem_filter, catOne, catCan,
      and_assoc]
  have hf : m ∈ (match_all_recipes_categorize ms).missing_few ↔
      m ∈ ms ∧ m.availability_percent ≠ 100 ∧ m.missing_ingredients.length ≠ 1 ∧
        2 ≤ m.missing_ingredients.length ∧ m.missing_ingredients.length ≤ 3 := by
    simp [match_all_recipes_categorize, categorize_loop_eq, List.mem_filter, catFew, catCan,
      and_assoc]
  have hs : m ∈ (match_all_recipes_categorize ms).with_substitutions ↔
      m ∈ ms ∧ m.availability_percent ≠ 100 ∧ m.missing_ingredients.length ≠ 1 ∧
        ¬(2 ≤ m.missing_ingredients.length ∧ m.missing_ingredients.length ≤ 3) ∧
        0 < m.suggested_substitutions.length := by
    simp only [match_all_recipes_categorize, categorize_loop_eq, List.mem_filter, catSub,
      catCan, Bool.and_eq_true, Bool.not_eq_eq_eq_not, Bool.not_true, decide_eq_false_iff_not,
      decide_eq_true_eq, and_assoc]
  refine ⟨⟨hc, ho, hf, hs⟩, ⟨?_, ?_, ?_⟩, ?_, ?_⟩
  · intro hm
    rw [hc] at hm
    refine ⟨?_, ?_, ?_⟩
    · rw [ho]
      rintro ⟨-, hne, -⟩
      exact hne hm.2
    · rw [hf]
      rintro ⟨-, hne, -⟩
      exact hne hm.2
    · rw [hs]
      rintro ⟨-, hne, -⟩
      exact hne hm.2
  · intro hm
    rw [ho] at hm
    refine ⟨?_, ?_⟩
    · rw [hf]
      rintro ⟨-, -, hne, -⟩
      exact hne hm.2.2
    · rw [hs]
      rintro ⟨-, -, hne, -⟩
      exact hne hm.2.2
  · intro hm
    rw [hf] at hm
    rw [hs]
    rintro ⟨-, -, -, hn23, -⟩
    exact hn23 hm.2.2.2
  · rintro ⟨hmem, hp, h1, h2, h3, hpos⟩
    refine ⟨?_, ?_⟩
    · rw [hf]
      exact ⟨hmem, hp, h1, h2, h3⟩
    · rw [hs]
      rintro ⟨-, -, -, hn23, -⟩
      exact hn23 ⟨h2, h3⟩
  · rintro ⟨hp, h1, hn23, hz⟩
    refine ⟨?_, ?_, ?_, ?_⟩
    · rw [hc]
      rintro ⟨-, he⟩
      exact hp he
    · rw [ho]
      rintro ⟨-, -, he⟩
      exact h1 he
    · rw [hf]
      rintro ⟨-, -, -, hle⟩
      exact hn23 hle
    · rw [hs]
      rintro ⟨-, -, -, -, hpos⟩
      omega

/-- A concrete match result with two missing ingredients and one available
substitution suggestion. -/
def sampleFewMatch : RecipeMatchResult :=
  ⟨1, chars "stew", chars "missing_ingredients", 50, [], [chars "a", chars "b"],
   [⟨5, chars "x", 6, chars "y", 1, 7, none⟩]⟩

/-- Witness for C5: the sample recipe lands in `missing_few` and not in
`with_substitutions`. -/
theorem claim_C5_witness :
    sampleFewMatch ∈ (match_all_recipes_categorize [sampleFewMatch]).missing_few ∧
      sampleFewMatch ∉ (match_all_recipes_categorize [sampleFewMatch]).with_substitutions :=
  (claim_C5 [sampleFewMatch] sampleFewMatch).2.2.1
    ⟨by decide, by decide, by decide, by decide, by decide, by decide⟩

/-- The rule accepted by `find_substitution_for_ingredient`: quality at least
5 and substitute present in the inventory map. -/
def subQualifies (inventory : List (Nat × InventoryIngredient))
    (sub : IngredientSubstitution) : Bool :=
  decide (5 ≤ sub.quality_score) && invContains inventory sub.substitute_ingredient_id

theorem find_substitution_loop_eq_find (db : Store) (ingredient_id : Nat)
    (inventory : List (Nat × InventoryIngredient))
    (horig : (get_ingredient_by_id db ingredient_id).isSome = true)
    (hinv : ∀ k, invContains inventory k = true → (get_ingredient_by_id db k).isSome = true) :
    ∀ rules : List IngredientSubstitution,
      find_substitution_loop db ingredient_id inventory rules =
        (rules.find? (subQualifies inventory)).bind (fun sub =>
          (get_ingredient_by_id db sub.substitute_ingredient_id).bind (fun s_ing =>
            (get_ingredient_by_id db ingredient_id).map (fun o_ing =>
              ⟨ingredient_id, o_ing.name, sub.substitute_ingredient_id, s_ing.name,
               sub.ratio, sub.quality_score, sub.notes⟩))) := by
  intro rules
  induction rules with
  | nil => rfl
  | cons sub rest ih =>
    unfold find_substitution_loop
    by_cases hq : sub.quality_score < 5
    · rw [if_pos hq, ih]
      have hp : subQualifies inventory sub = false := by
        unfold subQualifies
        rw [decide_eq_false (by omega)]
        rfl
      rw [List.find?_cons_of_neg _ (by simp [hp])]
    · rw [if_neg hq]
      by_cases hcont : invContains inventory sub.substitute_ingredient_id = true
      · rw [if_pos hcont]
        have hp : subQualifies inventory sub = true := by
          unfold subQualifies
          rw [decide_eq_true (by omega), hcont]
          rfl
        rw [List.find?_cons_of_pos _ hp]
        rcases Option.isSome_iff_exists.mp (hinv _ hcont) with ⟨s_ing, hs⟩
        rcases Option.isSome_iff_exists.mp horig with ⟨o_ing, ho⟩
        rw [Option.some_bind, hs, ho]
        rfl
      · rw [if_neg hcont, ih]
        have hc2 : invContains inventory sub.substitute_ingredient_id = false := by
          rcases Bool.eq_false_or_eq_true (invContains inventory sub.substitute_ingredient_id)
            with h | h
          · exact absurd h hcont
          · exact h
        have hp : subQualifies inventory sub = false := by
          unfold subQualifies
          rw [hc2, Bool.and_false]
        rw [List.find?_cons_of_neg _ (by simp [hp])]

theorem find_substitution_loop_keys_only (db : Store) (ingredient_id : Nat)
    (inventory inventory2 : List (Nat × InventoryIngredient))
    (hkeys : ∀ k, invContains inventory2 k = invContains inventory k) :
    ∀ rules : List IngredientSubstitution,
      find_substitution_loop db ingredient_id inventory2 rules =
        find_substitution_loop db ingredient_id inventory rules := by
  intro rules
  induction rules with
  | nil => rfl
  | cons sub rest ih =>
    unfold find_substitution_loop
    rw [hkeys, ih]

/-- C9: on a store holding the referenced ingredient rows,
`find_substitution_for_ingredient` returns exactly the suggestion built from
the first stored rule with quality at least 5 whose substitute is present in
inventory (`none` when no rule qualifies), and the result depends on the
inventory only through its key set — available quantities are never
examined. -/
theorem claim_C9 (db : Store) (ingredient_id : Nat)
    (inventory inventory2 : List (Nat × InventoryIngredient))
    (horig : (get_ingredient_by_id db ingredient_id).isSome = true)
    (hinv : ∀ k, invContains inventory k = true → (get_ingredient_by_id db k).isSome = true)
    (hkeys : ∀ k, invContains inventory2 k = invContains inventory k) :
    find_substitution_for_ingredient db ingredient_id inventory =
      ((get_substitutions_for_ingredient db ingredient_id).find?
          (subQualifies inventory)).bind (fun sub =>
        (get_ingredient_by_id db sub.substitute_ingredient_id).bind (fun s_ing =>
          (get_ingredient_by_id db ingredient_id).map (fun o_ing =>
            ⟨ingredient_id, o_ing.name, sub.substitute_ingredient_id, s_ing.name,
             sub.ratio, sub.quality_score, sub.notes⟩))) ∧
    find_substitution_for_ingredient db ingredient_id inventory2 =
      find_substitution_for_ingredient db ingredient_id inventory := by
  constructor
  · exact find_substitution_loop_eq_find db ingredient_id inventory horig hinv _
  · exact find_substitution_loop_keys_only db ingredient_id inventory inventory2 hkeys _

/-- Concrete store for the C9 witness: butter has one quality-7 rule whose
substitute (margarine) is stocked. -/
def C9db : Store :=
  ⟨[⟨1, chars "butter", chars "butter", none, none⟩,
    ⟨2, chars "margarine", chars "margarine", none, none⟩],
   [], [⟨1, 2, 1, 7, none⟩], 3⟩

/-- Inventory with 500 g of margarine. -/
def C9inv : List (Nat × InventoryIngredient) :=
  [(2, ⟨2, chars "margarine", 500, chars "g", []⟩)]

/-- Same key set, different available quantity. -/
def C9inv2 : List (Nat × InventoryIngredient) :=
  [(2, ⟨2, chars "margarine", 5, chars "g", []⟩)]

/-- Witness for C9: the suggestion is independent of available quantities. -/
theorem claim_C9_witness :
    find_substitution_for_ingredient C9db 1 C9inv2 =
      find_substitution_for_ingredient C9db 1 C9inv :=
  (claim_C9 C9db 1 C9inv C9inv2 (by decide)
    (by
      intro k hk
      simp only [invContains, C9inv, List.any_cons, List.any_nil, Bool.or_false,
        decide_eq_true_eq] at hk
      subst hk
      decide)
    (fun _ => rfl)).2

theorem pyTruthyNum_getD_ne_zero {o : Option ℚ} (h : pyTruthyNum o = true) : o.getD 0 ≠ 0 := by
  cases o with
  | none => simp [pyTruthyNum] at h
  | some v => simpa [pyTruthyNum] using h

theorem weight_tier23_nonzero {weights : List (List Char × ℚ)}
    {usda : List Char → Option ℚ} {name : List Char} {w : ℚ} {s : List Char}
    (h : weight_tier23 weights usda name = some (w, s)) : w ≠ 0 := by
  unfold weight_tier23 at h
  by_cases h1 : pyTruthyNum (get_manual_weight weights name) = true
  · rw [if_pos h1] at h
    simp only [Option.some.injEq, Prod.mk.injEq] at h
    rw [← h.1]
    exact pyTruthyNum_getD_ne_zero h1
  · rw [if_neg h1] at h
    by_cases h2 : pyTruthyNum (usda name) = true
    · rw [if_pos h2] at h
      simp only [Option.some.injEq, Prod.mk.injEq] at h
      rw [← h.1]
      exact pyTruthyNum_getD_ne_zero h2
    · rw [if_neg h2] at h
      simp at h

theorem weight_tier_lookup_nonzero {weights : List (List Char × ℚ)}
    {usda : List Char → Option ℚ} {name : List Char} {count : ℚ} {text : List Char}
    {w : ℚ} {s : List Char}
    (h : weight_tier_lookup weights usda name count text = .ok (some (w, s))) : w ≠ 0 := by
  unfold weight_tier_lookup at h
  cases hx : extract_weight_from_text text with
  | error e => rw [hx] at h; exact Except.noConfusion h
  | ok o =>
    rw [hx] at h
    cases o with
    | none =>
      simp only [Except.ok.injEq] at h
      exact weight_tier23_nonzero h
    | some hint =>
      dsimp only at h
      by_cases hc : count = 0
      · rw [if_pos hc] at h
        exact Except.noConfusion h
      · rw [if_neg hc] at h
        by_cases hz : (convert_to_base_unit hint.1 hint.2 (some name)).quantity / count ≠ 0
        · rw [if_pos hz] at h
          simp only [Except.ok.injEq, Option.some.injEq, Prod.mk.injEq] at h
          rw [← h.1]
          exact hz
        · rw [if_neg hz] at h
          simp only [Except.ok.injEq] at h
          exact weight_tier23_nonzero h

/-- Concrete identity for the C6 counterexample: cached weight present but
equal to `0.0`; the cached source names a prior tier. -/
def C6ref : IngredientReference :=
  ⟨1, chars "shallot", chars "shallot", some 0, some (chars "prior")⟩

/-- Store holding only that identity. -/
def C6db : Store := ⟨[C6ref], [], [], 2⟩

/-- Manual weight table knowing the shallot. -/
def C6weights : List (List Char × ℚ) := [(chars "shallot", 10)]

/-- Provider returning no data. -/
def C6usda : List Char → Option ℚ := fun _ => none

/-- C6 counterexample: with `average_unit_weight_grams` set to `0.0` the call
does not return the cached value — Python truthiness treats `0.0` as unset,
the manual tier is consulted, and the result's source is `"manual"`, not the
cached `weight_source`. -/
theorem claim_C6_counterexample :
    C6ref.avg_weight_grams = some 0 ∧
    (∃ db2, get_weight_for_count_ingredient C6weights C6usda C6db C6ref 2 (chars "") =
      .ok (some ⟨2 * 10, chars "g", chars "manual"⟩, db2)) ∧
    chars "manual" ≠ pyOrStr C6ref.weight_source (chars "cached") :=
  ⟨rfl, ⟨_, rfl⟩, by decide⟩

/-- C6 (amended): when the cached `average_unit_weight_grams` is set and
nonzero, the call returns `count * cached` with source the cached
`weight_source` (defaulting to `"cached"` when that is unset), for every
recipe text, manual table and provider — the tier logic is never consulted
and the store is untouched. When the cache is not truthy and the call
returns a result, the per-unit weight came from the tier lookup, is nonzero,
and is persisted with its tier name onto the identity row. -/
theorem claim_C6_amended :
    (∀ (weights : List (List Char × ℚ)) (usda : List Char → Option ℚ) (db : Store)
        (ref : IngredientReference) (count : ℚ) (text : List Char) (w : ℚ),
      ref.avg_weight_grams = some w → w ≠ 0 →
      get_weight_for_count_ingredient weights usda db ref count text =
        .ok (some ⟨count * w, chars "g", pyOrStr ref.weight_source (chars "cached")⟩, db)) ∧
    (∀ (weights : List (List Char × ℚ)) (usda : List Char → Option ℚ) (db : Store)
        (ref : IngredientReference) (count : ℚ) (text : List Char)
        (res : WeightResult) (db2 : Store),
      pyTruthyNum ref.avg_weight_grams = false →
      get_weight_for_count_ingredient weights usda db ref count text = .ok (some res, db2) →
      ∃ w s, w ≠ 0 ∧
        weight_tier_lookup weights usda ref.name count text = .ok (some (w, s)) ∧
        res = ⟨count * w, chars "g", s⟩ ∧
        ∀ i ∈ db2.ingredients, i.id = ref.id →
          i.avg_weight_grams = some w ∧ i.weight_source = some s) := by
  constructor
  · intro weights usda db ref count text w hw hnz
    have ht : pyTruthyNum ref.avg_weight_grams = true := by
      rw [hw]
      simp [pyTruthyNum, hnz]
    unfold get_weight_for_count_ingredient
    rw [if_pos ht, hw]
    rfl
  · intro weights usda db ref count text res db2 hfalse hres
    unfold get_weight_for_count_ingredient at hres
    rw [if_neg (by rw [hfalse]; simp)] at hres
    cases hlk : weight_tier_lookup weights usda ref.name count text with
    | error e => rw [hlk] at hres; exact Except.noConfusion hres
    | ok o =>
      rw [hlk] at hres
      cases o with
      | none => simp at hres
      | some ws =>
        dsimp only at hres
        obtain ⟨w, s⟩ := ws
        dsimp only at hres
        cases hup : update_avg_weight db ref.id w s with
        | error e => rw [hup] at hres; exact Except.noConfusion hres
        | ok db2x =>
          rw [hup] at hres
          simp only [Except.ok.injEq, Prod.mk.injEq, Option.some.injEq] at hres
          obtain ⟨hres1, hres2⟩ := hres
          refine ⟨w, s, weight_tier_lookup_nonzero hlk, rfl, hres1.symm, ?_⟩
          intro i hi hid
          unfold update_avg_weight at hup
          cases hg : get_ingredient_by_id db ref.id with
          | none => rw [hg] at hup; exact Except.noConfusion hup
          | some found =>
            rw [hg] at hup
            simp only [Except.ok.injEq] at hup
            rw [← hres2, ← hup] at hi
            simp only [List.mem_map] at hi
            rcases hi with ⟨j, hj, hji⟩
            by_cases hj2 : j.id = ref.id
            · rw [if_pos hj2] at hji
              rw [← hji]
              exact ⟨rfl, rfl⟩
            · rw [if_neg hj2] at hji
              rw [← hji] at hid
              exact absurd hid hj2

/-- Identity with a truthy cached weight for the C6 witness. -/
def C6refCached : IngredientReference :=
  ⟨1, chars "carrot", chars "carrot", some 60, some (chars "manual")⟩

/-- Witness for C6 (amended), cached branch: 3 carrots at a cached 60 g. -/
theorem claim_C6_witness :
    get_weight_for_count_ingredient C6weights C6usda C6db C6refCached 3 (chars "text") =
      .ok (some ⟨3 * 60, chars "g", pyOrStr C6refCached.weight_source (chars "cached")⟩,
        C6db) :=
  claim_C6_amended.1 C6weights C6usda C6db C6refCached 3 (chars "text") 60 rfl (by norm_num)

/-- The empty store. -/
def emptyStore : Store := ⟨[], [], [], 0⟩

/-- The identity created for `"green onion"` on first resolution. -/
def greenOnionRef : IngredientReference :=
  ⟨0, chars "green onion", chars "green onion", none, none⟩

/-- The store after `resolve("scallions")` on the empty store. -/
def scallionStore : Store :=
  ⟨[greenOnionRef], [⟨chars "scallions", 0⟩], [], 1⟩

/-- C7: on an empty store, `resolve("scallions")` creates the canonical
`"green onion"` identity via the seed table and records the alias;
`resolve("green onion")` then returns the same identity; a repeated
`resolve("scallions")` returns that identity unchanged through the stored
alias for every seed table, i.e. without consulting the seed table again. -/
theorem claim_C7 :
    find_or_create_ingredient INGREDIENT_ALIAS_SEEDS MANUAL_FRESH_WEIGHTS emptyStore
        (chars "scallions") = (some greenOnionRef, scallionStore) ∧
    (find_or_create_ingredient INGREDIENT_ALIAS_SEEDS MANUAL_FRESH_WEIGHTS scallionStore
        (chars "green onion")).1 = some greenOnionRef ∧
    IngredientAlias.mk (chars "scallions") greenOnionRef.id ∈ scallionStore.aliases ∧
    ∀ seeds2 : List (List Char × List (List Char)),
      find_or_create_ingredient seeds2 MANUAL_FRESH_WEIGHTS scallionStore
        (chars "scallions") = (some greenOnionRef, scallionStore) := by
  refine ⟨by decide, by decide, by decide, fun seeds2 => rfl⟩

theorem get_or_create_canonical_spec (db : Store) (cname : List Char) :
    (get_or_create_canonical db cname).2.ingredients = db.ingredients ∨
      (get_or_create_canonical db cname).2.ingredients =
        db.ingredients ++ [(get_or_create_canonical db cname).1] := by
  unfold get_or_create_canonical
  cases h1 : get_ingredient_by_name db cname with
  | some ing => left; rfl
  | none =>
    cases h2 : get_ingredient_by_normalized_name db cname with
    | some ing => left; rfl
    | none => right; rfl

/-- Referential integrity of the alias table: every alias row points at a
stored ingredient row. The schema enforces this with a foreign key
(`models/ingredient_alias.py`, `ondelete="CASCADE"`), and every code path
creates aliases only with the id of a row it just read or created. -/
def StoreWF (db : Store) : Prop :=
  ∀ al ∈ db.aliases, ∃ ing ∈ db.ingredients, ing.id = al.ingredient_id

/-- C1: on every store satisfying alias referential integrity and every
input name, the resolver returns an identity (never `None`), and the store
gains at most that one identity row — each tier either returns an existing
row or creates exactly one. -/
theorem claim_C1 (seeds : List (List Char × List (List Char)))
    (weights : List (List Char × ℚ)) (db : Store) (name : List Char)
    (hwf : StoreWF db) :
    ∃ ing db2,
      find_or_create_ingredient seeds weights db name = (some ing, db2) ∧
      (db2.ingredients = db.ingredients ∨ db2.ingredients = db.ingredients ++ [ing]) := by
  unfold find_or_create_ingredient
  cases h1 : get_ingredient_by_name db name with
  | some ing => exact ⟨ing, db, rfl, Or.inl rfl⟩
  | none =>
  cases h2 : get_ingredient_by_normalized_name db name with
  | some ing => exact ⟨ing, db, rfl, Or.inl rfl⟩
  | none =>
  cases h3 : get_alias_by_text db name with
  | some al =>
    have hal : al ∈ db.aliases := List.mem_of_find?_eq_some h3
    rcases hwf al hal with ⟨ing, hmem, hid⟩
    have hsome : (get_ingredient_by_id db al.ingredient_id).isSome = true := by
      unfold get_ingredient_by_id
      rw [List.find?_isSome]
      exact ⟨ing, hmem, by simp [hid]⟩
    rcases Option.isSome_iff_exists.mp hsome with ⟨ing2, hf⟩
    exact ⟨ing2, db, by dsimp only; rw [hf], Or.inl rfl⟩
  | none =>
  cases h4 : find_canonical_in_seeds seeds name with
  | some cname =>
    rcases get_or_create_canonical_spec db cname with hsp | hsp
    · exact ⟨(get_or_create_canonical db cname).1,
        create_ingredient_alias (get_or_create_canonical db cname).2 name
          (get_or_create_canonical db cname).1.id, rfl, Or.inl hsp⟩
    · exact ⟨(get_or_create_canonical db cname).1,
        create_ingredient_alias (get_or_create_canonical db cname).2 name
          (get_or_create_canonical db cname).1.id, rfl, Or.inr hsp⟩
  | none =>
  cases h5 : (singularize_candidates name).find? (fun c => (dictLookup weights c).isSome) with
  | some candidate =>
    rcases get_or_create_canonical_spec db candidate with hsp | hsp
    · exact ⟨(get_or_create_canonical db candidate).1,
        create_ingredient_alias (get_or_create_canonical db candidate).2 name
          (get_or_create_canonical db candidate).1.id, rfl, Or.inl hsp⟩
    · exact ⟨(get_or_create_canonical db candidate).1,
        create_ingredient_alias (get_or_create_canonical db candidate).2 name
          (get_or_create_canonical db candidate).1.id, rfl, Or.inr hsp⟩
  | none =>
  cases h6 : (singularize_candidates name).findSome? (fun c =>
      match get_ingredient_by_name db c with
      | some ing => some ing
      | none => get_ingredient_by_normalized_name db c) with
  | some ing => exact ⟨ing, create_ingredient_alias db name ing.id, rfl, Or.inl rfl⟩
  | none =>
  by_cases h7 : (dictLookup weights name).isSome = true
  · rw [if_pos h7]
    exact ⟨(create_ingredient_reference db name name).1,
      (create_ingredient_reference db name name).2, rfl, Or.inr rfl⟩
  · rw [if_neg h7]
    exact ⟨(create_ingredient_reference db name name).1,
      (create_ingredient_reference db name name).2, rfl, Or.inr rfl⟩

/-- Witness for C1: resolving the unknown name `"tofu scramble"` on the
store left by the C7 run creates exactly one new identity. -/
theorem claim_C1_witness :
    ∃ ing db2,
      find_or_create_ingredient INGREDIENT_ALIAS_SEEDS MANUAL_FRESH_WEIGHTS scallionStore
          (chars "tofu scramble") = (some ing, db2) ∧
      (db2.ingredients = scallionStore.ingredients ∨
        db2.ingredients = scallionStore.ingredients ++ [ing]) :=
  claim_C1 INGREDIENT_ALIAS_SEEDS MANUAL_FRESH_WEIGHTS scallionStore
    (chars "tofu scramble") (by unfold StoreWF; decide)
